import Mathlib

/-!
# cmtspeech-connection: the modem speech bridge of the PulseAudio cmtspeech module

A shallow embedding of `src/cmtspeech/cmtspeech-connection.c`.

* The module state (`struct userdata` with its embedded `struct cmtspeech_connection`)
  is a record that every function takes and returns.
* Calls into collaborators that the module can only observe through their results
  (libcmtspeechdata, the poll clock, the sink's flush handler) take their results
  from an `Env` record, one field per call site.
* What the module does to its collaborators is appended to traces kept in the state:
  `outq` (requests posted to the main-loop handler), `source_msgs`, `sink_msgs`
  and `calls` (every libcmtspeechdata call, with the state of the shared mutex at
  the time of the call).
* `pa_assert` failures abort the process: functions that can reach one return
  `Option`, with `none` for the abort.
* What another thread does while a function waits for it (the waiting loops of
  `cmtspeech_connection_unload`) is an explicit argument as well.
* `pa_log_*` calls have no effect on the state and are left out.
-/

namespace Cmtspeech

/-! ## Data model -/

/-- Modelled from the spec: the modem-reported protocol state of `cmtspeech.h`
(the header is not part of the source tree), the enum
Disconnected, Connected, ActiveDL, ActiveDLUL. -/
inductive cmtspeech_state where
  | CMTSPEECH_STATE_DISCONNECTED
  | CMTSPEECH_STATE_CONNECTED
  | CMTSPEECH_STATE_ACTIVE_DL
  | CMTSPEECH_STATE_ACTIVE_DLUL
  deriving DecidableEq, Repr

/-- Modelled from the spec: the message type of a control event (`cmtspeech.h` and
`cmtspeech_msgs.h` are not part of the source tree). The three types the module
tests for are named; every other protocol message is `OTHER code`. -/
inductive cmtspeech_msg_type where
  | CMTSPEECH_SPEECH_CONFIG_REQ
  | CMTSPEECH_TIMING_CONFIG_NTF
  | CMTSPEECH_EVENT_RESET
  | OTHER (code : Nat)
  deriving DecidableEq, Repr

export cmtspeech_state (CMTSPEECH_STATE_DISCONNECTED CMTSPEECH_STATE_CONNECTED
  CMTSPEECH_STATE_ACTIVE_DL CMTSPEECH_STATE_ACTIVE_DLUL)
export cmtspeech_msg_type (CMTSPEECH_SPEECH_CONFIG_REQ CMTSPEECH_TIMING_CONFIG_NTF
  CMTSPEECH_EVENT_RESET)

/-- The `struct timespec` carried by a timing notification. -/
structure timespec where
  tv_sec : Int
  tv_nsec : Int
  deriving DecidableEq, Repr

/-- Payload `msg.speech_config_req` of a control event (opaque metadata, only logged). -/
structure speech_config_req_t where
  sample_rate : Nat
  data_format : Nat
  speech_data_stream : Nat
  deriving DecidableEq, Repr

/-- Payload `msg.timing_config_ntf` of a control event. `msec` and `usec` are
`uint16_t` fields of the library's event structure. -/
structure timing_config_ntf_t where
  msec : Nat
  usec : Nat
  tstamp : timespec
  deriving DecidableEq, Repr

/-- The control event `cmtspeech_event_t` filled in by `cmtspeech_read_event`. The C
union `msg` is kept as one field per member: each member is read only under the
matching `msg_type`, or for logging. -/
structure cmtspeech_event_t where
  prev_state : cmtspeech_state
  state : cmtspeech_state
  msg_type : cmtspeech_msg_type
  speech_config_req : speech_config_req_t
  timing_config_ntf : timing_config_ntf_t
  deriving DecidableEq, Repr

/-- A frame buffer descriptor `cmtspeech_buffer_t` owned by the library. `addr` is the
address of the descriptor (its identity), `pcount` the fixed payload capacity in
bytes, `payload` the payload bytes. -/
structure cmtspeech_buffer_t where
  addr : Nat
  count : Nat
  pcount : Nat
  payload : List Nat
  deriving DecidableEq, Repr

/-- Modelled from the spec: the control bit of the event flag bitmask returned by
`cmtspeech_check_pending` (`cmtspeech.h` is not part of the source tree). -/
def CMTSPEECH_EVENT_CONTROL : Nat := 1

/-- Modelled from the spec: the data-available bit of the event flag bitmask returned by
`cmtspeech_check_pending` (`cmtspeech.h` is not part of the source tree). -/
def CMTSPEECH_EVENT_DL_DATA : Nat := 2

/-- The `poll(2)` bit tested on the protocol descriptor. -/
def POLLIN : Nat := 1

/-- The errno value of an I/O error. -/
def EIO : Int := 5

def PA_USEC_PER_SEC : Nat := 1000000

/-- `CMTSPEECH_CLEANUP_TIMER_TIMEOUT`, five seconds in microseconds. -/
def CMTSPEECH_CLEANUP_TIMER_TIMEOUT : Nat := 5 * PA_USEC_PER_SEC

/-- `enum cmt_speech_thread_state`. -/
inductive cmt_speech_thread_state where
  | CMT_UNINITIALIZED
  | CMT_STARTING
  | CMT_RUNNING
  | CMT_ASK_QUIT
  | CMT_QUIT
  deriving DecidableEq, Repr

/-- `enum cmtspeech_cleanup_state_name`. -/
inductive cmtspeech_cleanup_state_name where
  | CMTSPEECH_CLEANUP_TIMER_INACTIVE
  | CMTSPEECH_CLEANUP_TIMER_ACTIVE
  | CMTSPEECH_CLEANUP_IN_PROGRESS
  deriving DecidableEq, Repr

export cmtspeech_cleanup_state_name (CMTSPEECH_CLEANUP_TIMER_INACTIVE
  CMTSPEECH_CLEANUP_TIMER_ACTIVE CMTSPEECH_CLEANUP_IN_PROGRESS)

/-- Requests the module posts to the main-loop handler on `pa_thread_mq_get()->outq`
(the `CMTSPEECH_MAINLOOP_HANDLER_*` codes of `cmtspeech-mainloop-handler.h`). -/
inductive mainloop_handler_msg where
  | CMTSPEECH_MAINLOOP_HANDLER_CREATE_STREAMS
  | CMTSPEECH_MAINLOOP_HANDLER_DELETE_STREAMS
  | CMTSPEECH_MAINLOOP_HANDLER_CMT_DL_CONNECT
  | CMTSPEECH_MAINLOOP_HANDLER_CMT_DL_DISCONNECT
  | CMTSPEECH_MAINLOOP_HANDLER_CMT_UL_CONNECT
  | CMTSPEECH_MAINLOOP_HANDLER_CMT_UL_DISCONNECT
  deriving DecidableEq, Repr

export mainloop_handler_msg (CMTSPEECH_MAINLOOP_HANDLER_CREATE_STREAMS
  CMTSPEECH_MAINLOOP_HANDLER_DELETE_STREAMS CMTSPEECH_MAINLOOP_HANDLER_CMT_DL_CONNECT
  CMTSPEECH_MAINLOOP_HANDLER_CMT_DL_DISCONNECT CMTSPEECH_MAINLOOP_HANDLER_CMT_UL_CONNECT
  CMTSPEECH_MAINLOOP_HANDLER_CMT_UL_DISCONNECT)

/-- Messages posted to the voice source: `VOICE_SOURCE_SET_UL_DEADLINE` with its
`offset` argument. -/
inductive source_msg where
  | VOICE_SOURCE_SET_UL_DEADLINE (offset : Int)
  deriving DecidableEq, Repr

/-- Messages sent to the sink input. -/
inductive sink_input_msg where
  | PA_SINK_INPUT_MESSAGE_FLUSH_DL
  deriving DecidableEq, Repr

/-- The libcmtspeechdata entry points the module calls. The first argument is the
handle the call was given (`none` for a null handle). -/
inductive cmtspeech_call where
  | check_pending (h : Option Nat)
  | read_event (h : Option Nat)
  | is_active (h : Option Nat)
  | dl_buffer_acquire (h : Option Nat)
  | dl_buffer_release (h : Option Nat) (buf : cmtspeech_buffer_t)
  | ul_buffer_acquire (h : Option Nat)
  | ul_buffer_release (h : Option Nat) (buf : cmtspeech_buffer_t)
  | state_change_error (h : Option Nat)
  | close (h : Option Nat)
  | open_
  | descriptor (h : Option Nat)
  | state_change_call_connect (h : Option Nat) (state : Bool)
  | state_change_call_status (h : Option Nat) (state : Bool)
  deriving DecidableEq, Repr

/-- One library call in the trace, with whether `cmtspeech_mutex` was held by the
caller when it was made. -/
structure call_record where
  call : cmtspeech_call
  locked : Bool
  deriving DecidableEq, Repr

/-- Modelled from the spec: the bounded ring that carries downlink frames to the audio
consumer (the PulseAudio `pa_asyncq`, which is not part of the source tree): `size`
cells, `cells` the queued entries, oldest first. -/
structure pa_asyncq where
  size : Nat
  cells : List cmtspeech_buffer_t
  deriving DecidableEq, Repr

/-- The `struct pollfd` of the protocol descriptor's poll item. -/
structure pollfd where
  fd : Int
  events : Nat
  revents : Nat
  deriving DecidableEq, Repr

/-- The timer of the module's `pa_rtpoll`, as last set by the module. -/
inductive rtpoll_timer where
  | disabled
  | absolute (usec : Nat)
  | relative (usec : Nat)
  deriving DecidableEq, Repr

/-- The part of `pa_source` the module reads: `PA_SOURCE_IS_LINKED(state)`. -/
structure pa_source where
  linked : Bool
  deriving DecidableEq, Repr

/-- The part of `pa_sink` the module reads: whether `asyncmsgq` is set. -/
structure pa_sink where
  asyncmsgq : Bool
  deriving DecidableEq, Repr

/-- The part of `pa_sink_input` the module reads: `PA_SINK_INPUT_IS_LINKED(state)` and
the `sink` pointer. -/
structure pa_sink_input where
  linked : Bool
  sink : Option pa_sink
  deriving DecidableEq, Repr

/-- The resources `cmtspeech_connection_unload` gives back. -/
inductive module_resource where
  | cmt_handler
  | thread_state_change
  | rtpoll
  | thread_mq
  | dl_frame_queue
  | cmtspeech_mutex
  deriving DecidableEq, Repr

/-- The fields of `struct cmtspeech_connection` that the functions below use.
`cmtspeech` is the protocol handle (`none` for NULL), `cmtspeech_mutex` is whether
the mutex is currently held, `cmt_handler` and `thread_state_change` are whether those
pointers are set. -/
structure cmtspeech_connection where
  cmtspeech : Option Nat
  cmtspeech_mutex : Bool
  call_ul : Bool
  call_dl : Bool
  call_emergency : Bool
  first_dl_frame_received : Bool
  record_running : Bool
  playback_running : Bool
  streams_created : Bool
  dl_frame_queue : pa_asyncq
  cmt_poll_item : Option pollfd
  rtpoll : rtpoll_timer
  thread_state : cmt_speech_thread_state
  cmt_handler : Bool
  thread_state_change : Bool
  deriving DecidableEq, Repr

/-- The module state: `struct userdata` (the fields this file uses), the file-scope
static `ul_frame_count`, and the traces of what the module did to its collaborators
(`freed` lists the resources given back, in the order of the calls). -/
structure userdata where
  cmt_connection : cmtspeech_connection
  cmtspeech_server_status : Int
  cmtspeech_cleanup_state : cmtspeech_cleanup_state_name
  server_inactive_timeout : Nat
  source : Option pa_source
  sink_input : Option pa_sink_input
  ul_frame_count : Nat
  outq : List mainloop_handler_msg
  source_msgs : List source_msg
  sink_msgs : List sink_input_msg
  calls : List call_record
  freed : List module_resource
  deriving DecidableEq, Repr

/-- Results of the collaborator calls made during one call into the module. -/
structure Env where
  /-- the value `pa_rtclock_now()` returns -/
  now : Nat
  /-- return value and `flags` output of `cmtspeech_check_pending` -/
  check_pending_res : Int
  check_pending_flags : Nat
  /-- return value of `cmtspeech_read_event` and the event it stores -/
  read_event_ret : Int
  cmtevent : cmtspeech_event_t
  /-- return value of `cmtspeech_is_active` -/
  is_active : Bool
  /-- return value of `cmtspeech_dl_buffer_acquire` and the buffer it stores -/
  dl_buffer_acquire_ret : Int
  dl_buf : cmtspeech_buffer_t
  /-- return value of `cmtspeech_ul_buffer_acquire` and the buffer it stores -/
  ul_buffer_acquire_ret : Int
  salbuf : cmtspeech_buffer_t
  /-- return value of `cmtspeech_ul_buffer_release` -/
  ul_buffer_release_ret : Int
  /-- return value of the synchronous `PA_SINK_INPUT_MESSAGE_FLUSH_DL` send -/
  flush_dl_ret : Int
  /-- the handle `cmtspeech_open()` returns (`none` for NULL) -/
  cmtspeech_open : Option Nat
  /-- return value of `cmtspeech_descriptor` -/
  descriptor : Int
  /-- return value of `pa_rtpoll_run` and the `revents` it leaves in the protocol
  descriptor's poll item -/
  rtpoll_run_ret : Int
  poll_revents : Nat
  deriving Repr

/-! ## Primitive operations on the state -/

def pa_mutex_lock (u : userdata) : userdata :=
  { u with cmt_connection.cmtspeech_mutex := true }

def pa_mutex_unlock (u : userdata) : userdata :=
  { u with cmt_connection.cmtspeech_mutex := false }

/-- Record a libcmtspeechdata call, with the current state of the mutex. -/
def record_call (u : userdata) (c : cmtspeech_call) : userdata :=
  { u with calls := u.calls ++ [⟨c, u.cmt_connection.cmtspeech_mutex⟩] }

/-- The call `pa_asyncmsgq_post(pa_thread_mq_get()->outq, u->mainloop_handler, code, ...)`. -/
def post_mainloop_handler (u : userdata) (code : mainloop_handler_msg) : userdata :=
  { u with outq := u.outq ++ [code] }

/-- Modelled from the spec: the non-blocking push `pa_asyncq_push(q, p, false)` of the
bounded ring, which fails (`none`) when no cell is free and otherwise appends the entry. -/
def pa_asyncq_push (q : pa_asyncq) (p : cmtspeech_buffer_t) : Option pa_asyncq :=
  if q.cells.length < q.size then some { q with cells := q.cells ++ [p] } else none

/-- Wrap-around of a signed 32-bit integer (`int`). -/
def wrap_int32 (x : Int) : Int := (x + 2 ^ 31) % 2 ^ 32 - 2 ^ 31

/-- Wrap-around of a signed 64-bit integer (`int64_t`). -/
def wrap_int64 (x : Int) : Int := (x + 2 ^ 63) % 2 ^ 64 - 2 ^ 63

/-- The call `memcpy(dst, src, n)` on byte lists: the first `n` bytes of `dst` are
replaced by the first `n` bytes of `src`. -/
def memcpy (dst src : List Nat) (n : Nat) : List Nat :=
  src.take n ++ dst.drop n

/-! ## The functions of `cmtspeech-connection.c` -/

/-- The hand-off `push_cmtspeech_buffer_to_dl_queue`: push the frame into the downlink
queue; when the push fails, release the frame under the mutex and return -1. -/
def push_cmtspeech_buffer_to_dl_queue (u : userdata) (buf : cmtspeech_buffer_t) :
    Int × userdata :=
  match pa_asyncq_push u.cmt_connection.dl_frame_queue buf with
  | none =>
    let u := pa_mutex_lock u
    let u := record_call u (.dl_buffer_release u.cmt_connection.cmtspeech buf)
    let u := pa_mutex_unlock u
    (-1, u)
  | some q => (0, { u with cmt_connection.dl_frame_queue := q })

/-- The `int deadline_us` of `update_uplink_frame_timing`. -/
def deadline_us (ntf : timing_config_ntf_t) : Int :=
  wrap_int32 (((ntf.msec % 20) * 1000 + ntf.usec : Nat) : Int)

/-- The `int64_t usec` of `update_uplink_frame_timing`: the absolute deadline.
`Int.tdiv` is the C division, which rounds towards zero. -/
def uplink_deadline (ntf : timing_config_ntf_t) : Int :=
  wrap_int64 (wrap_int64 (wrap_int64 (ntf.tstamp.tv_sec * 1000000) +
    Int.tdiv ntf.tstamp.tv_nsec 1000) + deadline_us ntf)

/-- The test `u->source && PA_SOURCE_IS_LINKED(u->source->state)`. -/
def source_linked (u : userdata) : Bool :=
  match u.source with
  | none => false
  | some src => src.linked

/-- The function `update_uplink_frame_timing`: forward the deadline to the source when
it is linked, otherwise only log. -/
def update_uplink_frame_timing (u : userdata) (cmtevent : cmtspeech_event_t) : userdata :=
  let usec := uplink_deadline cmtevent.timing_config_ntf
  if source_linked u then
    { u with source_msgs := u.source_msgs ++ [.VOICE_SOURCE_SET_UL_DEADLINE usec] }
  else u

/-- The function `reset_call_stream_states`. -/
def reset_call_stream_states (u : userdata) : userdata :=
  let u :=
    if u.cmt_connection.streams_created then
      let u := post_mainloop_handler u CMTSPEECH_MAINLOOP_HANDLER_DELETE_STREAMS
      { u with cmt_connection.streams_created := false }
    else u
  let u :=
    if u.cmt_connection.playback_running then
      { u with cmt_connection.playback_running := false }
    else u
  if u.cmt_connection.record_running then
    { u with cmt_connection.record_running := false, ul_frame_count := 0 }
  else u

/-- The local flush loop of `close_cmtspeech_on_error`:
`while ((buf = pa_asyncq_pop(c->dl_frame_queue, 0))) cmtspeech_dl_buffer_release(...)`,
by recursion on the queued entries. -/
def flush_dl_frame_queue (u : userdata) : List cmtspeech_buffer_t → userdata
  | [] => { u with cmt_connection.dl_frame_queue.cells := [] }
  | buf :: rest =>
    let u := { u with cmt_connection.dl_frame_queue.cells := rest }
    let u := record_call u (.dl_buffer_release u.cmt_connection.cmtspeech buf)
    flush_dl_frame_queue u rest

/-- The test `u->sink_input && PA_SINK_INPUT_IS_LINKED(u->sink_input->state) &&
u->sink_input->sink && u->sink_input->sink->asyncmsgq`. -/
def dl_sink_connected (u : userdata) : Bool :=
  match u.sink_input with
  | none => false
  | some si =>
    si.linked &&
      (match si.sink with
       | none => false
       | some s => s.asyncmsgq)

/-- The function `close_cmtspeech_on_error`. `none` is the failure of
`pa_assert_se(pa_asyncmsgq_send(...) == 0)`. -/
def close_cmtspeech_on_error (env : Env) (u : userdata) : Option userdata :=
  let u := reset_call_stream_states u
  let flushed : Option userdata :=
    if dl_sink_connected u then
      let u := { u with sink_msgs := u.sink_msgs ++ [.PA_SINK_INPUT_MESSAGE_FLUSH_DL] }
      if env.flush_dl_ret = 0 then some u else none
    else
      some (flush_dl_frame_queue u u.cmt_connection.dl_frame_queue.cells)
  match flushed with
  | none => none
  | some u =>
    let u := pa_mutex_lock u
    let u := record_call u (.close u.cmt_connection.cmtspeech)
    let u := { u with cmt_connection.cmtspeech := none }
    some (pa_mutex_unlock u)

/-- The chain of tests `mainloop_cmtspeech` applies to a control event that was read
successfully (`i == 0`). The modem-reset row ends the call of `mainloop_cmtspeech`:
the result is `Sum.inl` for that early return and `Sum.inr` when the function goes
on to the downlink-data step; `none` is an assertion failure while closing. -/
def mainloop_control_event (env : Env) (u : userdata) (cmtevent : cmtspeech_event_t) :
    Option (userdata ⊕ userdata) :=
  if cmtevent.prev_state = CMTSPEECH_STATE_DISCONNECTED ∧
      cmtevent.state = CMTSPEECH_STATE_CONNECTED then
    let u := reset_call_stream_states u
    let u := post_mainloop_handler u CMTSPEECH_MAINLOOP_HANDLER_CREATE_STREAMS
    some (.inr { u with cmt_connection.streams_created := true })
  else if cmtevent.prev_state = CMTSPEECH_STATE_CONNECTED ∧
      cmtevent.state = CMTSPEECH_STATE_ACTIVE_DL ∧
      cmtevent.msg_type = CMTSPEECH_SPEECH_CONFIG_REQ then
    let u := post_mainloop_handler u CMTSPEECH_MAINLOOP_HANDLER_CMT_DL_CONNECT
    let u := { u with cmt_connection.playback_running := true }
    some (.inr { u with cmt_connection.first_dl_frame_received := false })
  else if cmtevent.prev_state = CMTSPEECH_STATE_ACTIVE_DLUL ∧
      cmtevent.state = CMTSPEECH_STATE_ACTIVE_DL ∧
      cmtevent.msg_type = CMTSPEECH_SPEECH_CONFIG_REQ then
    some (.inr u)
  else if cmtevent.prev_state = CMTSPEECH_STATE_ACTIVE_DL ∧
      cmtevent.state = CMTSPEECH_STATE_ACTIVE_DLUL then
    let u := post_mainloop_handler u CMTSPEECH_MAINLOOP_HANDLER_CMT_UL_CONNECT
    some (.inr { u with cmt_connection.record_running := true })
  else if cmtevent.state = CMTSPEECH_STATE_ACTIVE_DLUL ∧
      cmtevent.msg_type = CMTSPEECH_TIMING_CONFIG_NTF then
    some (.inr (update_uplink_frame_timing u cmtevent))
  else if (cmtevent.prev_state = CMTSPEECH_STATE_ACTIVE_DL ∨
      cmtevent.prev_state = CMTSPEECH_STATE_ACTIVE_DLUL) ∧
      cmtevent.state = CMTSPEECH_STATE_CONNECTED then
    let u := post_mainloop_handler u CMTSPEECH_MAINLOOP_HANDLER_CMT_DL_DISCONNECT
    let u := { u with cmt_connection.playback_running := false }
    let u := post_mainloop_handler u CMTSPEECH_MAINLOOP_HANDLER_CMT_UL_DISCONNECT
    let u := { u with cmt_connection.record_running := false }
    some (.inr { u with ul_frame_count := 0 })
  else if cmtevent.prev_state = CMTSPEECH_STATE_CONNECTED ∧
      cmtevent.state = CMTSPEECH_STATE_DISCONNECTED then
    let u := post_mainloop_handler u CMTSPEECH_MAINLOOP_HANDLER_DELETE_STREAMS
    let u := { u with cmt_connection.streams_created := false }
    some (.inr (reset_call_stream_states u))
  else if cmtevent.msg_type = CMTSPEECH_EVENT_RESET then
    match close_cmtspeech_on_error env u with
    | none => none
    | some u => some (.inl u)
  else
    if cmtevent.state = CMTSPEECH_STATE_DISCONNECTED then
      some (.inr (reset_call_stream_states u))
    else some (.inr u)

/-- The downlink-data step of `mainloop_cmtspeech` (`flags & CMTSPEECH_EVENT_DL_DATA`).
`cmtspeech` is the local copy of the handle taken at the top of the function. -/
def mainloop_dl_data (env : Env) (u : userdata) (cmtspeech : Option Nat) : userdata :=
  let u := pa_mutex_lock u
  let u := record_call u (.is_active u.cmt_connection.cmtspeech)
  let cmtspeech_active := env.is_active
  let u := record_call u (.dl_buffer_acquire cmtspeech)
  let i := env.dl_buffer_acquire_ret
  let buf := env.dl_buf
  let u := pa_mutex_unlock u
  if i < 0 then u
  else
    if u.cmt_connection.playback_running then
      let u :=
        if u.cmt_connection.first_dl_frame_received != true then
          { u with cmt_connection.first_dl_frame_received := true }
        else u
      (push_cmtspeech_buffer_to_dl_queue u buf).2
    else if cmtspeech_active != true then u
    else u

/-- The call `pa_atomic_cmpxchg(&u->cmtspeech_cleanup_state, old, new)`: when the
watchdog state is `old` it becomes `new` and the result is true, otherwise nothing
changes and the result is false. -/
def cleanup_state_cmpxchg (u : userdata) (old new : cmtspeech_cleanup_state_name) :
    Bool × userdata :=
  if u.cmtspeech_cleanup_state = old then
    (true, { u with cmtspeech_cleanup_state := new })
  else (false, u)

/-- The timer path of `mainloop_cmtspeech` (no `POLLIN` on the protocol descriptor). -/
def mainloop_timer_path (env : Env) (u : userdata) : userdata :=
  let (swapped, u) :=
    cleanup_state_cmpxchg u CMTSPEECH_CLEANUP_TIMER_ACTIVE CMTSPEECH_CLEANUP_IN_PROGRESS
  if swapped then
    let u := pa_mutex_lock u
    let u :=
      if u.cmtspeech_server_status = 0 ∧ u.cmt_connection.cmtspeech.isSome then
        if u.server_inactive_timeout ≤ env.now then
          let u := record_call u (.is_active u.cmt_connection.cmtspeech)
          let u :=
            if env.is_active then
              let u := post_mainloop_handler u CMTSPEECH_MAINLOOP_HANDLER_CMT_DL_DISCONNECT
              let u := post_mainloop_handler u CMTSPEECH_MAINLOOP_HANDLER_CMT_UL_DISCONNECT
              record_call u (.state_change_error u.cmt_connection.cmtspeech)
            else u
          let u := { u with cmt_connection.rtpoll := .disabled }
          { u with cmtspeech_cleanup_state := CMTSPEECH_CLEANUP_TIMER_INACTIVE }
        else
          let u := { u with cmt_connection.rtpoll := .relative CMTSPEECH_CLEANUP_TIMER_TIMEOUT }
          { u with cmtspeech_cleanup_state := CMTSPEECH_CLEANUP_TIMER_ACTIVE }
      else
        let u := { u with cmt_connection.rtpoll := .disabled }
        { u with cmtspeech_cleanup_state := CMTSPEECH_CLEANUP_TIMER_INACTIVE }
    pa_mutex_unlock u
  else if u.cmtspeech_server_status = 0 ∧ u.cmt_connection.cmtspeech = none then
    { u with cmt_connection.rtpoll := .disabled }
  else u

/-- The function `mainloop_cmtspeech`: one dispatch step of the event loop. The result
is the return value `retsockets` and the new state; `none` is an assertion failure. -/
def mainloop_cmtspeech (env : Env) (u : userdata) : Option (Int × userdata) :=
  match u.cmt_connection.cmt_poll_item with
  | none => some (0, u)
  | some pfd =>
    let u :=
      if u.cmtspeech_server_status ≠ 0 then
        { u with cmt_connection.rtpoll :=
            .absolute (env.now + CMTSPEECH_CLEANUP_TIMER_TIMEOUT) }
      else u
    if pfd.revents &&& POLLIN ≠ 0 then
      let u := pa_mutex_lock u
      let cmtspeech := u.cmt_connection.cmtspeech
      let u := record_call u (.check_pending cmtspeech)
      let res := env.check_pending_res
      let flags := env.check_pending_flags
      let retsockets : Int := if 0 ≤ res then 1 else 0
      let u := pa_mutex_unlock u
      if 0 < res then
        let afterControl : Option (userdata ⊕ userdata) :=
          if flags &&& CMTSPEECH_EVENT_CONTROL ≠ 0 then
            let u := pa_mutex_lock u
            let u := record_call u (.read_event cmtspeech)
            let i := env.read_event_ret
            let u := pa_mutex_unlock u
            if i ≠ 0 then some (.inr u)
            else mainloop_control_event env u env.cmtevent
          else some (.inr u)
        match afterControl with
        | none => none
        | some (.inl u) => some (retsockets, u)
        | some (.inr u) =>
          if flags &&& CMTSPEECH_EVENT_DL_DATA ≠ 0 then
            some (retsockets, mainloop_dl_data env u cmtspeech)
          else some (retsockets, u)
      else some (retsockets, u)
    else some (0, mainloop_timer_path env u)

/-- How a call of `cmtspeech_send_ul_frame` ends.
* `returned res u`: it returns `res` in the state `u`.
* `length_assert_failed u salbuf`: `pa_assert(bytes == (size_t)salbuf->pcount)` fails;
  `u` is the state and `salbuf` the acquired uplink buffer at that moment.
* `close_assert_failed u`: the assertion in `close_cmtspeech_on_error` fails; `u` is the
  state in which close-on-error was entered. -/
inductive send_ul_frame_end where
  | returned (res : Int) (u : userdata)
  | length_assert_failed (u : userdata) (salbuf : cmtspeech_buffer_t)
  | close_assert_failed (u : userdata)
  deriving DecidableEq, Repr

/-- The return value and the state of a call that returns; `none` for a call that ends
in an assertion failure. -/
def send_ul_frame_end.result : send_ul_frame_end → Option (Int × userdata)
  | .returned res u => some (res, u)
  | .length_assert_failed _ _ => none
  | .close_assert_failed _ => none

/-- The body of `cmtspeech_send_ul_frame(u, buf, bytes)`, statement by statement, with
the way the call ends. -/
def cmtspeech_send_ul_frame_run (env : Env) (u : userdata) (buf : List Nat) (bytes : Nat) :
    send_ul_frame_end :=
  let res : Int := -1
  let u := pa_mutex_lock u
  if u.cmt_connection.cmtspeech = none then
    let u := pa_mutex_unlock u
    .returned (- EIO) u
  else
    let u := record_call u (.is_active u.cmt_connection.cmtspeech)
    let (res, u) :=
      if env.is_active = true then
        (env.ul_buffer_acquire_ret, record_call u (.ul_buffer_acquire u.cmt_connection.cmtspeech))
      else (res, u)
    if res = 0 then
      let salbuf := env.salbuf
      let u := { u with ul_frame_count := (u.ul_frame_count + 1) % 2 ^ 32 }
      if bytes ≠ salbuf.pcount then .length_assert_failed u salbuf
      else
        let salbuf := { salbuf with payload := memcpy salbuf.payload buf bytes }
        let u := record_call u (.ul_buffer_release u.cmt_connection.cmtspeech salbuf)
        let res := env.ul_buffer_release_ret
        if res < 0 ∧ res = - EIO then
          let u := pa_mutex_unlock u
          match close_cmtspeech_on_error env u with
          | none => .close_assert_failed u
          | some u =>
            let u := pa_mutex_lock u
            .returned res (pa_mutex_unlock u)
        else .returned res (pa_mutex_unlock u)
    else
      .returned res (pa_mutex_unlock u)

/-- The function `cmtspeech_send_ul_frame(u, buf, bytes)`. The result is the return
value and the new state; `none` is the failure of
`pa_assert(bytes == (size_t)salbuf->pcount)` or of the assertion in
`close_cmtspeech_on_error`. -/
def cmtspeech_send_ul_frame (env : Env) (u : userdata) (buf : List Nat) (bytes : Nat) :
    Option (Int × userdata) :=
  (cmtspeech_send_ul_frame_run env u buf bytes).result

/-- The result `DBusHandlerResult` of the signal filter. -/
inductive DBusHandlerResult where
  | DBUS_HANDLER_RESULT_HANDLED
  | DBUS_HANDLER_RESULT_NOT_YET_HANDLED
  deriving DecidableEq, Repr

export DBusHandlerResult (DBUS_HANDLER_RESULT_HANDLED DBUS_HANDLER_RESULT_NOT_YET_HANDLED)

/-- Modelled from the spec: the voice-call states of the external signal
VoiceCallStateChanged (the `OFONO_DBUS_VOICECALL_*` strings of the header, which is not
part of the source tree); `OTHER` is any string that is none of them. -/
inductive ofono_voicecall_state where
  | OFONO_DBUS_VOICECALL_ACTIVE
  | OFONO_DBUS_VOICECALL_ALERTING
  | OFONO_DBUS_VOICECALL_HELD
  | OFONO_DBUS_VOICECALL_WAITING
  | OFONO_DBUS_VOICECALL_INCOMING
  | OFONO_DBUS_VOICECALL_DIALING
  | OFONO_DBUS_VOICECALL_DISCONNECTED
  | OTHER
  deriving DecidableEq, Repr

/-- A D-Bus message as `cmtspeech_dbus_filter` reads it.
* `CSCALL_CONNECT args`: the call-connect signal; `args` are the three booleans
  (ul, dl, emergency), `none` when `dbus_message_get_args` sets the error.
* `CSCALL_STATUS arg`: the server-status signal; `none` when the message has no
  argument, `some none` when the first argument is not a boolean.
* `PHONE_SSC_STATE`: the modem state signal, which is only logged.
* `VOICECALL_CHANGE name value`: the oFono property-changed signal; `name` is `none`
  when there is no argument, `some none` when the first argument is not a string,
  `value` is `none` when there is no second argument.
* `OTHER`: any other message. -/
inductive dbus_message where
  | CSCALL_CONNECT (args : Option (Bool × Bool × Bool))
  | CSCALL_STATUS (arg : Option (Option Bool))
  | PHONE_SSC_STATE
  | VOICECALL_CHANGE (name : Option (Option String)) (value : Option ofono_voicecall_state)
  | OTHER
  deriving DecidableEq, Repr

/-- The boolean `val` that the voice-call branch of `cmtspeech_dbus_filter` derives from
the call state string. -/
def voicecall_in_progress : ofono_voicecall_state → Bool
  | .OFONO_DBUS_VOICECALL_ACTIVE => true
  | .OFONO_DBUS_VOICECALL_ALERTING => true
  | .OFONO_DBUS_VOICECALL_HELD => true
  | .OFONO_DBUS_VOICECALL_WAITING => true
  | .OFONO_DBUS_VOICECALL_INCOMING => false
  | .OFONO_DBUS_VOICECALL_DIALING => false
  | .OFONO_DBUS_VOICECALL_DISCONNECTED => false
  | .OTHER => false

/-- The body of the server-status branch of `cmtspeech_dbus_filter` under the mutex,
for a boolean argument `val`. -/
def dbus_server_status (env : Env) (u : userdata) (val : Bool) : userdata :=
  let u := pa_mutex_lock u
  let u :=
    if u.cmt_connection.cmtspeech.isSome then
      let u := record_call u (.state_change_call_status u.cmt_connection.cmtspeech val)
      if val then
        let u := { u with cmtspeech_server_status := 1 }
        (cleanup_state_cmpxchg u CMTSPEECH_CLEANUP_TIMER_ACTIVE
          CMTSPEECH_CLEANUP_TIMER_INACTIVE).2
      else
        let u := { u with
          server_inactive_timeout := env.now + CMTSPEECH_CLEANUP_TIMER_TIMEOUT }
        let u := (cleanup_state_cmpxchg u CMTSPEECH_CLEANUP_TIMER_INACTIVE
          CMTSPEECH_CLEANUP_TIMER_ACTIVE).2
        { u with cmtspeech_server_status := 0 }
    else u
  pa_mutex_unlock u

/-- The function `cmtspeech_dbus_filter`, called from the PulseAudio main thread for
every D-Bus message. -/
def cmtspeech_dbus_filter (env : Env) (u : userdata) (msg : dbus_message) :
    DBusHandlerResult × userdata :=
  match msg with
  | .CSCALL_CONNECT args =>
    match args with
    | some (ulflag, dlflag, emergencyflag) =>
      let u := { u with
        cmt_connection.call_ul := ulflag
        cmt_connection.call_dl := dlflag
        cmt_connection.call_emergency := emergencyflag }
      let u := pa_mutex_lock u
      let u :=
        if u.cmt_connection.cmtspeech.isSome then
          record_call u (.state_change_call_connect u.cmt_connection.cmtspeech dlflag)
        else u
      (DBUS_HANDLER_RESULT_HANDLED, pa_mutex_unlock u)
    | none => (DBUS_HANDLER_RESULT_HANDLED, u)
  | .CSCALL_STATUS arg =>
    match arg with
    | some (some val) => (DBUS_HANDLER_RESULT_HANDLED, dbus_server_status env u val)
    | some none => (DBUS_HANDLER_RESULT_HANDLED, u)
    | none => (DBUS_HANDLER_RESULT_HANDLED, u)
  | .PHONE_SSC_STATE => (DBUS_HANDLER_RESULT_NOT_YET_HANDLED, u)
  | .VOICECALL_CHANGE name value =>
    match name, value with
    | some (some callstr), some callstate =>
      if callstr = "State" then
        let val := voicecall_in_progress callstate
        let u := pa_mutex_lock u
        let u :=
          if u.cmt_connection.cmtspeech.isSome then
            record_call u (.state_change_call_status u.cmt_connection.cmtspeech val)
          else u
        (DBUS_HANDLER_RESULT_NOT_YET_HANDLED, pa_mutex_unlock u)
      else (DBUS_HANDLER_RESULT_NOT_YET_HANDLED, u)
    | _, _ => (DBUS_HANDLER_RESULT_NOT_YET_HANDLED, u)
  | .OTHER => (DBUS_HANDLER_RESULT_NOT_YET_HANDLED, u)

/-- The waiting loop `while (pa_atomic_load(&c->thread_state) == s) usleep(200000);` of
`cmtspeech_connection_unload`. The event-loop thread runs during each sleep: `obs`
lists the thread states it has stored by the end of the successive sleeps. The result
is `none` when the state is still `s` after the last of them (the loop has not ended). -/
def wait_while_thread_state (s : cmt_speech_thread_state) (u : userdata) :
    List cmt_speech_thread_state → Option (userdata × List cmt_speech_thread_state)
  | [] => if u.cmt_connection.thread_state = s then none else some (u, [])
  | o :: rest =>
    if u.cmt_connection.thread_state = s then
      wait_while_thread_state s { u with cmt_connection.thread_state := o } rest
    else some (u, o :: rest)

/-- Give back one resource. -/
def free_resource (u : userdata) (r : module_resource) : userdata :=
  { u with freed := u.freed ++ [r] }

/-- The teardown of `cmtspeech_connection_unload`, after its `switch`: the thread state
is reset and the handler, the wake signal, the poll set, the thread message queues, the
downlink queue and the mutex are given back. (The file-scope pointer `userdata`, which
the function clears last, is not part of the state.) -/
def unload_teardown (u : userdata) : userdata :=
  let u := { u with cmt_connection.thread_state := .CMT_UNINITIALIZED }
  let u :=
    if u.cmt_connection.cmt_handler then
      { free_resource u .cmt_handler with cmt_connection.cmt_handler := false }
    else u
  let u :=
    if u.cmt_connection.thread_state_change then
      { free_resource u .thread_state_change with cmt_connection.thread_state_change := false }
    else u
  let u := free_resource u .rtpoll
  let u := free_resource u .thread_mq
  let u := free_resource u .dl_frame_queue
  free_resource u .cmtspeech_mutex

/-- The case `CMT_ASK_QUIT` of `cmtspeech_connection_unload` and what follows it. -/
def unload_from_ask_quit (obs : List cmt_speech_thread_state) (u : userdata) :
    Option userdata :=
  match wait_while_thread_state .CMT_ASK_QUIT u obs with
  | none => none
  | some (u, _) => some (unload_teardown u)

/-- The case `CMT_RUNNING` of `cmtspeech_connection_unload` and what follows it:
`pa_assert_se(pa_atomic_cmpxchg(&c->thread_state, CMT_RUNNING, CMT_ASK_QUIT))`, then the
wake signal is posted and the function falls through to the case `CMT_ASK_QUIT`. -/
def unload_from_running (obs : List cmt_speech_thread_state) (u : userdata) :
    Option userdata :=
  if u.cmt_connection.thread_state = .CMT_RUNNING then
    unload_from_ask_quit obs { u with cmt_connection.thread_state := .CMT_ASK_QUIT }
  else none

/-- The function `cmtspeech_connection_unload`. `obs` is what the event-loop thread
stores in `thread_state` while this function sleeps (see `wait_while_thread_state`).
The result is `none` when an assertion fails or a waiting loop has not ended. The
`default` label of the `switch`, for a value outside the enum, has no counterpart: it
falls through to the case `CMT_UNINITIALIZED`. -/
def cmtspeech_connection_unload (obs : List cmt_speech_thread_state) (u : userdata) :
    Option userdata :=
  match u.cmt_connection.thread_state with
  | .CMT_UNINITIALIZED => some u
  | .CMT_STARTING =>
    match wait_while_thread_state .CMT_STARTING u obs with
    | none => none
    | some (u, obs) => unload_from_running obs u
  | .CMT_RUNNING => unload_from_running obs u
  | .CMT_ASK_QUIT => unload_from_ask_quit obs u
  | .CMT_QUIT => some (unload_teardown u)

/-- The function `check_cmtspeech_connection`: open the protocol handle when there is
none. -/
def check_cmtspeech_connection (env : Env) (u : userdata) : Int × userdata :=
  if u.cmt_connection.cmtspeech.isSome then (0, u)
  else
    let u := pa_mutex_lock u
    let u := record_call u .open_
    let u := { u with cmt_connection.cmtspeech := env.cmtspeech_open }
    let u := pa_mutex_unlock u
    if u.cmt_connection.cmtspeech = none then (-1, u) else (0, u)

/-- The function `pollfd_update`: the poll item of the protocol descriptor is dropped
and, when a handle is open, created again with no event reported yet. (The poll item of
the wake signal, which it also creates again, is not part of the state.) -/
def pollfd_update (env : Env) (u : userdata) : userdata :=
  let u :=
    if u.cmt_connection.cmt_poll_item.isSome then
      { u with cmt_connection.cmt_poll_item := none }
    else u
  if u.cmt_connection.cmtspeech.isSome then
    let u := pa_mutex_lock u
    let u := record_call u (.descriptor u.cmt_connection.cmtspeech)
    let u := pa_mutex_unlock u
    let pfd : pollfd := { fd := env.descriptor, events := POLLIN, revents := 0 }
    { u with cmt_connection.cmt_poll_item := some pfd }
  else u

/-- The call `pa_rtpoll_run(c->rtpoll)` as the module sees it: the poll item of the
protocol descriptor, when there is one, holds the reported events afterwards. -/
def pa_rtpoll_run (env : Env) (u : userdata) : Int × userdata :=
  match u.cmt_connection.cmt_poll_item with
  | none => (env.rtpoll_run_ret, u)
  | some pfd =>
    let pfd : pollfd := { pfd with revents := env.poll_revents }
    (env.rtpoll_run_ret, { u with cmt_connection.cmt_poll_item := some pfd })

/-- Where one pass through the `while(1)` loop of `thread_func` leads: to the next
pass, to the label `finish`, or to the label `fail`. -/
inductive thread_func_next where
  | next_pass (u : userdata)
  | finish (u : userdata)
  | fail (u : userdata)
  deriving DecidableEq, Repr

/-- One pass through the `while(1)` loop of `thread_func`. `none` is an assertion
failure in `close_cmtspeech_on_error`. -/
def thread_func_pass (env : Env) (u : userdata) : Option thread_func_next :=
  let (r, u) := check_cmtspeech_connection env u
  let u :=
    if r ≠ 0 then { u with cmt_connection.rtpoll := .relative (60 * 1000 * 1000) }
    else u
  let u := pollfd_update env u
  let (ret, u) := pa_rtpoll_run env u
  let closed : Option userdata :=
    if ret < 0 then
      let u := record_call u (.descriptor u.cmt_connection.cmtspeech)
      close_cmtspeech_on_error env u
    else some u
  match closed with
  | none => none
  | some u =>
    if u.cmt_connection.thread_state = .CMT_ASK_QUIT then some (.finish u)
    else if u.cmt_connection.cmtspeech = none then some (.next_pass u)
    else
      match mainloop_cmtspeech env u with
      | none => none
      | some (r, u) =>
        if r < 0 then some (.fail u) else some (.next_pass u)

/-! ## Concrete states and environments used to evaluate the code -/

/-- The connection as `cmtspeech_connection_init` leaves it: no handle, all flags
false, an empty downlink queue of four cells. -/
def init_connection : cmtspeech_connection :=
  { cmtspeech := none
    cmtspeech_mutex := false
    call_ul := false
    call_dl := false
    call_emergency := false
    first_dl_frame_received := false
    record_running := false
    playback_running := false
    streams_created := false
    dl_frame_queue := { size := 4, cells := [] }
    cmt_poll_item := none
    rtpoll := .disabled
    thread_state := .CMT_STARTING
    cmt_handler := true
    thread_state_change := true }

/-- The module state after `cmtspeech_connection_init`, with no sink input and no
source linked yet and empty traces. -/
def init_userdata : userdata :=
  { cmt_connection := init_connection
    cmtspeech_server_status := 0
    cmtspeech_cleanup_state := CMTSPEECH_CLEANUP_TIMER_INACTIVE
    server_inactive_timeout := 0
    source := none
    sink_input := none
    ul_frame_count := 0
    outq := []
    source_msgs := []
    sink_msgs := []
    calls := []
    freed := [] }

/-- The state of a running event loop just before `mainloop_cmtspeech`: handle 1 is
open and the protocol descriptor is readable. -/
def ready_userdata : userdata :=
  { init_userdata with
    cmt_connection.cmtspeech := some 1
    cmt_connection.thread_state := .CMT_RUNNING
    cmt_connection.cmt_poll_item := some { fd := 3, events := POLLIN, revents := POLLIN } }

/-- A control event with zeroed payloads. -/
def mk_event (p s : cmtspeech_state) (t : cmtspeech_msg_type) : cmtspeech_event_t :=
  { prev_state := p, state := s, msg_type := t
    speech_config_req := { sample_rate := 0, data_format := 0, speech_data_stream := 0 }
    timing_config_ntf := { msec := 0, usec := 0, tstamp := { tv_sec := 0, tv_nsec := 0 } } }

/-- A downlink frame of 320 payload bytes behind a 4 byte header. -/
def frame (addr : Nat) : cmtspeech_buffer_t :=
  { addr := addr, count := 324, pcount := 320, payload := [] }

/-- An environment in which the library reports one pending control event `ev`, the
protocol inactive, and every call succeeding. -/
def control_env (ev : cmtspeech_event_t) : Env :=
  { now := 0
    check_pending_res := 1
    check_pending_flags := CMTSPEECH_EVENT_CONTROL
    read_event_ret := 0
    cmtevent := ev
    is_active := false
    dl_buffer_acquire_ret := 0
    dl_buf := frame 100
    ul_buffer_acquire_ret := 0
    salbuf := { addr := 200, count := 4, pcount := 4, payload := [0, 0, 0, 0] }
    ul_buffer_release_ret := 0
    flush_dl_ret := 0
    cmtspeech_open := some 1
    descriptor := 3
    rtpoll_run_ret := 1
    poll_revents := POLLIN }

/-! ## Auxiliary definitions for the statements -/

/-- A cycle of `mainloop_cmtspeech` in which a control event is read successfully: the
poll item exists and is readable, `cmtspeech_check_pending` returns a positive value
with the control flag set, and `cmtspeech_read_event` returns 0. -/
def reads_control_event (env : Env) (u : userdata) : Prop :=
  (∃ pfd, u.cmt_connection.cmt_poll_item = some pfd ∧ pfd.revents &&& POLLIN ≠ 0) ∧
  0 < env.check_pending_res ∧
  env.check_pending_flags &&& CMTSPEECH_EVENT_CONTROL ≠ 0 ∧
  env.read_event_ret = 0

/-- The state in which `mainloop_cmtspeech` reaches its chain of event tests: the
timer is re-armed when a call is in progress, and `cmtspeech_check_pending` and
`cmtspeech_read_event` have been called under the mutex. -/
def before_control_event (env : Env) (u : userdata) : userdata :=
  { u with
    cmt_connection.rtpoll :=
      if u.cmtspeech_server_status ≠ 0 then
        .absolute (env.now + CMTSPEECH_CLEANUP_TIMER_TIMEOUT)
      else u.cmt_connection.rtpoll
    cmt_connection.cmtspeech_mutex := false
    calls := u.calls ++ [⟨.check_pending u.cmt_connection.cmtspeech, true⟩,
      ⟨.read_event u.cmt_connection.cmtspeech, true⟩] }

/-- What `mainloop_cmtspeech` does after its chain of event tests. -/
def after_control_event (env : Env) (cmtspeech : Option Nat) :
    Option (userdata ⊕ userdata) → Option (Int × userdata)
  | none => none
  | some (.inl u) => some (1, u)
  | some (.inr u) =>
    if env.check_pending_flags &&& CMTSPEECH_EVENT_DL_DATA ≠ 0 then
      some (1, mainloop_dl_data env u cmtspeech)
    else some (1, u)

/-- The timing notification of Scenario C: msec = 37, usec = 500, timestamp
100.000000300 s. -/
def scenario_C_ntf : timing_config_ntf_t :=
  { msec := 37, usec := 500, tstamp := { tv_sec := 100, tv_nsec := 300 } }

/-- The second event of Scenario A: Connected to ActiveDL with the speech configuration
request rate 8000, format 1, stream 0. -/
def scenario_A_speech_config : cmtspeech_event_t :=
  { mk_event CMTSPEECH_STATE_CONNECTED CMTSPEECH_STATE_ACTIVE_DL CMTSPEECH_SPEECH_CONFIG_REQ with
    speech_config_req := { sample_rate := 8000, data_format := 1, speech_data_stream := 0 } }

/-- The event of Scenario C: the timing notification arrives in state ActiveDLUL. -/
def scenario_C_event : cmtspeech_event_t :=
  { mk_event CMTSPEECH_STATE_ACTIVE_DLUL CMTSPEECH_STATE_ACTIVE_DLUL
      CMTSPEECH_TIMING_CONFIG_NTF with timing_config_ntf := scenario_C_ntf }

/-- The environment of Scenario B: only downlink data is pending, the acquire succeeds
with the frame at address 100, and the protocol reports inactive. -/
def scenario_B_env : Env :=
  { control_env (mk_event CMTSPEECH_STATE_DISCONNECTED CMTSPEECH_STATE_DISCONNECTED (.OTHER 0))
    with check_pending_flags := CMTSPEECH_EVENT_DL_DATA }

/-- The uplink buffer as `cmtspeech_send_ul_frame` hands it to
`cmtspeech_ul_buffer_release`: the acquired buffer with the frame copied in. -/
def filled_salbuf (env : Env) (buf : List Nat) (bytes : Nat) : cmtspeech_buffer_t :=
  { env.salbuf with payload := memcpy env.salbuf.payload buf bytes }

/-- The state in which `cmtspeech_send_ul_frame` calls close-on-error after the release
failed with an I/O error: the frame was counted, the three library calls is-active,
acquire and release were made under the mutex, and the mutex has been dropped. -/
def before_close_in_send (env : Env) (u : userdata) (buf : List Nat) (bytes : Nat) :
    userdata :=
  { u with
    cmt_connection.cmtspeech_mutex := false
    ul_frame_count := (u.ul_frame_count + 1) % 2 ^ 32
    calls := u.calls ++ [⟨.is_active u.cmt_connection.cmtspeech, true⟩,
      ⟨.ul_buffer_acquire u.cmt_connection.cmtspeech, true⟩,
      ⟨.ul_buffer_release u.cmt_connection.cmtspeech (filled_salbuf env buf bytes), true⟩] }

/-- An environment for an uplink send in which the protocol is active, the acquire
succeeds with a four byte buffer, and the release fails with an I/O error. -/
def scenario_D_env : Env :=
  { control_env (mk_event CMTSPEECH_STATE_ACTIVE_DLUL CMTSPEECH_STATE_ACTIVE_DLUL (.OTHER 0))
    with
    is_active := true
    ul_buffer_release_ret := - EIO }

/-- A timer-path pass of `mainloop_cmtspeech`: the poll item of the protocol descriptor
exists and reports no input. -/
def timer_path_pass (u : userdata) : Prop :=
  ∃ pfd, u.cmt_connection.cmt_poll_item = some pfd ∧ pfd.revents &&& POLLIN = 0

/-- The state of Scenario E before the idle-timeout pass: handle 1 open, the poll item
reporting no input, the watchdog active with its deadline at `deadline`. -/
def watchdog_armed (deadline : Nat) : userdata :=
  { init_userdata with
    cmt_connection.cmtspeech := some 1
    cmt_connection.thread_state := .CMT_RUNNING
    cmt_connection.cmt_poll_item := some { fd := 3, events := POLLIN, revents := 0 }
    cmtspeech_cleanup_state := CMTSPEECH_CLEANUP_TIMER_ACTIVE
    server_inactive_timeout := deadline }

/-- An environment in which the clock reads `now` and the protocol reports `active`. -/
def timer_env (now : Nat) (active : Bool) : Env :=
  { control_env (mk_event CMTSPEECH_STATE_ACTIVE_DLUL CMTSPEECH_STATE_ACTIVE_DLUL (.OTHER 0))
    with
    now := now
    is_active := active }

/-- Whether a library call is `cmtspeech_dl_buffer_release(h, b)` for the frame `b` with
an open handle `h`. -/
def is_release_to_handle (b : cmtspeech_buffer_t) (r : call_record) : Bool :=
  match r.call with
  | .dl_buffer_release (some _) b' => decide (b' = b)
  | _ => false

/-- How many times the frame `b` was released back to an open protocol handle in a
trace of library calls. -/
def released_to_handle (calls : List call_record) (b : cmtspeech_buffer_t) : Nat :=
  calls.countP (is_release_to_handle b)

/-- A state with no handle open, streams created, the sink not connected and the frames
7 and 8 still queued. -/
def closed_with_queued_frames : userdata :=
  { init_userdata with
    cmt_connection.streams_created := true
    cmt_connection.dl_frame_queue.cells := [frame 7, frame 8] }

/-! ## Lemmas about the helper functions -/

/-- The local flush releases every queued frame once, in queue order, and empties the
queue; nothing else changes. -/
theorem flush_dl_frame_queue_eq (l : List cmtspeech_buffer_t) (u : userdata) :
    flush_dl_frame_queue u l =
      { u with
        cmt_connection.dl_frame_queue.cells := []
        calls := u.calls ++ l.map (fun b =>
          ⟨.dl_buffer_release u.cmt_connection.cmtspeech b, u.cmt_connection.cmtspeech_mutex⟩) } := by
  induction l generalizing u with
  | nil => simp [flush_dl_frame_queue]
  | cons b rest ih =>
    rw [flush_dl_frame_queue, ih]
    simp [record_call]

/-- A cycle that reads a control event is the chain of event tests, run in the state
`before_control_event`, followed by the downlink-data step. -/
theorem mainloop_cmtspeech_control (env : Env) (u : userdata)
    (h : reads_control_event env u) :
    mainloop_cmtspeech env u =
      after_control_event env u.cmt_connection.cmtspeech
        (mainloop_control_event env (before_control_event env u) env.cmtevent) := by
  obtain ⟨⟨pfd, hp, hin⟩, hres, hctl, hread⟩ := h
  have hres0 : 0 ≤ env.check_pending_res := le_of_lt hres
  obtain ⟨c, status, cleanup, tmo, src, si, cnt, outq, smsgs, kmsgs, calls, freed⟩ := u
  obtain ⟨hdl, mtx, cul, cdl, cem, fdl, rec, play, strm, q, item, tmr, ts, hnd, tsc⟩ := c
  simp only at hp
  subst hp
  have hb : ∀ (t : rtpoll_timer) (status : Int),
      mainloop_control_event env
        (pa_mutex_unlock (record_call (pa_mutex_lock (pa_mutex_unlock (record_call
          (pa_mutex_lock
            ⟨⟨hdl, mtx, cul, cdl, cem, fdl, rec, play, strm, q, some pfd, t, ts, hnd, tsc⟩,
              status, cleanup, tmo, src, si, cnt, outq, smsgs, kmsgs, calls, freed⟩)
          (.check_pending hdl)))) (.read_event hdl))) env.cmtevent =
      mainloop_control_event env
        ⟨⟨hdl, false, cul, cdl, cem, fdl, rec, play, strm, q, some pfd, t, ts, hnd, tsc⟩,
          status, cleanup, tmo, src, si, cnt, outq, smsgs, kmsgs,
          calls ++ [⟨.check_pending hdl, true⟩, ⟨.read_event hdl, true⟩], freed⟩ env.cmtevent := by
    intro t status
    simp [pa_mutex_lock, pa_mutex_unlock, record_call]
  by_cases hs : status = 0
  · subst hs
    simp only [mainloop_cmtspeech, before_control_event, hin, hres, hres0, hctl, hread,
      ne_eq, not_false_eq_true, if_true, not_true_eq_false, if_false]
    simp only [pa_mutex_lock, pa_mutex_unlock, record_call] at hb ⊢
    rw [hb]
    cases mainloop_control_event env _ env.cmtevent with
    | none => rfl
    | some r => cases r <;> rfl
  · simp only [mainloop_cmtspeech, before_control_event, hs, hin, hres, hres0, hctl, hread,
      ne_eq, not_false_eq_true, if_true, not_true_eq_false, if_false]
    simp only [pa_mutex_lock, pa_mutex_unlock, record_call] at hb ⊢
    rw [hb]
    cases mainloop_control_event env _ env.cmtevent with
    | none => rfl
    | some r => cases r <;> rfl

/-- The downlink-data step posts nothing to the main-loop handler or the source and
leaves the handle, the poll item, the three pipeline flags and the uplink frame counter
as they are; with playback off it also leaves the first-frame latch and the downlink
queue as they are and makes exactly the two library calls `cmtspeech_is_active` and
`cmtspeech_dl_buffer_acquire`. -/
theorem mainloop_dl_data_keeps (env : Env) (u : userdata) (h : Option Nat) :
    (mainloop_dl_data env u h).outq = u.outq ∧
    (mainloop_dl_data env u h).source_msgs = u.source_msgs ∧
    (mainloop_dl_data env u h).cmt_connection.cmtspeech = u.cmt_connection.cmtspeech ∧
    (mainloop_dl_data env u h).cmt_connection.cmt_poll_item = u.cmt_connection.cmt_poll_item ∧
    (mainloop_dl_data env u h).cmt_connection.streams_created =
      u.cmt_connection.streams_created ∧
    (mainloop_dl_data env u h).cmt_connection.playback_running =
      u.cmt_connection.playback_running ∧
    (mainloop_dl_data env u h).cmt_connection.record_running =
      u.cmt_connection.record_running ∧
    (mainloop_dl_data env u h).ul_frame_count = u.ul_frame_count ∧
    (u.cmt_connection.playback_running = false →
      (mainloop_dl_data env u h).cmt_connection.first_dl_frame_received =
        u.cmt_connection.first_dl_frame_received ∧
      (mainloop_dl_data env u h).cmt_connection.dl_frame_queue =
        u.cmt_connection.dl_frame_queue ∧
      (mainloop_dl_data env u h).calls = u.calls ++
        [⟨.is_active u.cmt_connection.cmtspeech, true⟩, ⟨.dl_buffer_acquire h, true⟩]) := by
  unfold mainloop_dl_data
  by_cases hi : env.dl_buffer_acquire_ret < 0
  · simp [hi, pa_mutex_lock, pa_mutex_unlock, record_call]
  · by_cases hp : u.cmt_connection.playback_running = true
    · by_cases hf : u.cmt_connection.first_dl_frame_received = true <;>
        by_cases hq : u.cmt_connection.dl_frame_queue.cells.length <
            u.cmt_connection.dl_frame_queue.size <;>
        simp [hi, hp, hf, hq, pa_mutex_lock, pa_mutex_unlock, record_call,
          push_cmtspeech_buffer_to_dl_queue, pa_asyncq_push]
    · simp [hi, hp, pa_mutex_lock, pa_mutex_unlock, record_call]

/-- When the chain of event tests does not return early, the cycle returns 1 in a state
that differs from the one the chain produced at most by the downlink-data step. -/
theorem after_control_event_inr (env : Env) (h : Option Nat) (v : userdata) :
    ∃ w, after_control_event env h (some (.inr v)) = some (1, w) ∧
      w.outq = v.outq ∧
      w.source_msgs = v.source_msgs ∧
      w.cmt_connection.cmtspeech = v.cmt_connection.cmtspeech ∧
      w.cmt_connection.cmt_poll_item = v.cmt_connection.cmt_poll_item ∧
      w.cmt_connection.streams_created = v.cmt_connection.streams_created ∧
      w.cmt_connection.playback_running = v.cmt_connection.playback_running ∧
      w.cmt_connection.record_running = v.cmt_connection.record_running ∧
      w.ul_frame_count = v.ul_frame_count ∧
      (v.cmt_connection.playback_running = false ∨
          env.check_pending_flags &&& CMTSPEECH_EVENT_DL_DATA = 0 →
        w.cmt_connection.first_dl_frame_received =
          v.cmt_connection.first_dl_frame_received ∧
        w.cmt_connection.dl_frame_queue = v.cmt_connection.dl_frame_queue) := by
  by_cases hd : env.check_pending_flags &&& CMTSPEECH_EVENT_DL_DATA = 0
  · exact ⟨v, by simp [after_control_event, hd]⟩
  · obtain ⟨h1, h2, h3, h4, h5, h6, h7, h8, h9⟩ := mainloop_dl_data_keeps env v h
    refine ⟨mainloop_dl_data env v h, by simp [after_control_event, hd],
      h1, h2, h3, h4, h5, h6, h7, h8, ?_⟩
    intro hor
    rcases hor with hp | h0
    · exact ⟨(h9 hp).1, (h9 hp).2.1⟩
    · exact absurd h0 hd

/-- The local reset clears the three pipeline flags, posts the stream-deletion request
exactly when streams existed, and leaves the handle, the queue, the poll item and the
first-frame latch as they are. -/
theorem reset_call_stream_states_spec (u : userdata) :
    (reset_call_stream_states u).cmt_connection.streams_created = false ∧
    (reset_call_stream_states u).cmt_connection.playback_running = false ∧
    (reset_call_stream_states u).cmt_connection.record_running = false ∧
    (reset_call_stream_states u).outq = u.outq ++
      (if u.cmt_connection.streams_created then [CMTSPEECH_MAINLOOP_HANDLER_DELETE_STREAMS]
       else []) ∧
    (reset_call_stream_states u).cmt_connection.cmtspeech = u.cmt_connection.cmtspeech ∧
    (reset_call_stream_states u).cmt_connection.cmt_poll_item =
      u.cmt_connection.cmt_poll_item ∧
    (reset_call_stream_states u).cmt_connection.dl_frame_queue =
      u.cmt_connection.dl_frame_queue ∧
    (reset_call_stream_states u).cmt_connection.first_dl_frame_received =
      u.cmt_connection.first_dl_frame_received ∧
    (reset_call_stream_states u).cmt_connection.cmtspeech_mutex =
      u.cmt_connection.cmtspeech_mutex ∧
    (reset_call_stream_states u).calls = u.calls ∧
    (reset_call_stream_states u).source_msgs = u.source_msgs ∧
    (reset_call_stream_states u).sink_msgs = u.sink_msgs ∧
    (reset_call_stream_states u).sink_input = u.sink_input := by
  unfold reset_call_stream_states
  cases hs : u.cmt_connection.streams_created <;>
    cases hp : u.cmt_connection.playback_running <;>
    cases hr : u.cmt_connection.record_running <;>
    simp [hs, hp, hr, post_mainloop_handler]

/-- Forwarding the uplink deadline appends one message for the linked source and
touches neither the requests to the main-loop handler nor the connection. -/
theorem update_uplink_frame_timing_spec (u : userdata) (ev : cmtspeech_event_t) :
    (update_uplink_frame_timing u ev).source_msgs = u.source_msgs ++
      (if source_linked u then
        [.VOICE_SOURCE_SET_UL_DEADLINE (uplink_deadline ev.timing_config_ntf)]
       else []) ∧
    (update_uplink_frame_timing u ev).outq = u.outq ∧
    (update_uplink_frame_timing u ev).cmt_connection = u.cmt_connection := by
  unfold update_uplink_frame_timing
  cases h : source_linked u <;> simp

/-- Row Disconnected to Connected of the chain of event tests. -/
theorem control_event_call_starting (env : Env) (u : userdata) (ev : cmtspeech_event_t)
    (hp : ev.prev_state = CMTSPEECH_STATE_DISCONNECTED)
    (hs : ev.state = CMTSPEECH_STATE_CONNECTED) :
    mainloop_control_event env u ev =
      some (.inr { post_mainloop_handler (reset_call_stream_states u)
          CMTSPEECH_MAINLOOP_HANDLER_CREATE_STREAMS with
        cmt_connection.streams_created := true }) := by
  simp [mainloop_control_event, hp, hs]

/-- Row Connected to ActiveDL with a speech configuration request. -/
theorem control_event_speech_start (env : Env) (u : userdata) (ev : cmtspeech_event_t)
    (hp : ev.prev_state = CMTSPEECH_STATE_CONNECTED)
    (hs : ev.state = CMTSPEECH_STATE_ACTIVE_DL)
    (hm : ev.msg_type = CMTSPEECH_SPEECH_CONFIG_REQ) :
    mainloop_control_event env u ev =
      some (.inr { post_mainloop_handler u CMTSPEECH_MAINLOOP_HANDLER_CMT_DL_CONNECT with
        cmt_connection.playback_running := true
        cmt_connection.first_dl_frame_received := false }) := by
  simp [mainloop_control_event, hp, hs, hm]

/-- Row ActiveDL to ActiveDLUL, for any message type. -/
theorem control_event_enabling_ul (env : Env) (u : userdata) (ev : cmtspeech_event_t)
    (hp : ev.prev_state = CMTSPEECH_STATE_ACTIVE_DL)
    (hs : ev.state = CMTSPEECH_STATE_ACTIVE_DLUL) :
    mainloop_control_event env u ev =
      some (.inr { post_mainloop_handler u CMTSPEECH_MAINLOOP_HANDLER_CMT_UL_CONNECT with
        cmt_connection.record_running := true }) := by
  simp [mainloop_control_event, hp, hs]

/-- Row ActiveDLUL with a timing notification, reached when the previous state is not
ActiveDL. -/
theorem control_event_timing (env : Env) (u : userdata) (ev : cmtspeech_event_t)
    (hp : ev.prev_state ≠ CMTSPEECH_STATE_ACTIVE_DL)
    (hs : ev.state = CMTSPEECH_STATE_ACTIVE_DLUL)
    (hm : ev.msg_type = CMTSPEECH_TIMING_CONFIG_NTF) :
    mainloop_control_event env u ev = some (.inr (update_uplink_frame_timing u ev)) := by
  simp [mainloop_control_event, hp, hs, hm]

/-- Row ActiveDL or ActiveDLUL to Connected, for any message type. -/
theorem control_event_speech_stop (env : Env) (u : userdata) (ev : cmtspeech_event_t)
    (hp : ev.prev_state = CMTSPEECH_STATE_ACTIVE_DL ∨
      ev.prev_state = CMTSPEECH_STATE_ACTIVE_DLUL)
    (hs : ev.state = CMTSPEECH_STATE_CONNECTED) :
    mainloop_control_event env u ev =
      some (.inr { post_mainloop_handler
          (post_mainloop_handler u CMTSPEECH_MAINLOOP_HANDLER_CMT_DL_DISCONNECT)
          CMTSPEECH_MAINLOOP_HANDLER_CMT_UL_DISCONNECT with
        cmt_connection.playback_running := false
        cmt_connection.record_running := false
        ul_frame_count := 0 }) := by
  rcases hp with hp | hp <;> simp [mainloop_control_event, hp, hs, post_mainloop_handler]

/-- Row Connected to Disconnected, for any message type. -/
theorem control_event_call_terminated (env : Env) (u : userdata) (ev : cmtspeech_event_t)
    (hp : ev.prev_state = CMTSPEECH_STATE_CONNECTED)
    (hs : ev.state = CMTSPEECH_STATE_DISCONNECTED) :
    mainloop_control_event env u ev =
      some (.inr (reset_call_stream_states
        { post_mainloop_handler u CMTSPEECH_MAINLOOP_HANDLER_DELETE_STREAMS with
          cmt_connection.streams_created := false })) := by
  simp [mainloop_control_event, hp, hs]

/-- A control event that matches none of the rows of the chain of event tests is only
logged, and the local reset is applied when its state is Disconnected. -/
theorem control_event_unrecognized (env : Env) (u : userdata) (ev : cmtspeech_event_t)
    (n1 : ¬(ev.prev_state = CMTSPEECH_STATE_DISCONNECTED ∧
      ev.state = CMTSPEECH_STATE_CONNECTED))
    (n2 : ¬(ev.prev_state = CMTSPEECH_STATE_CONNECTED ∧
      ev.state = CMTSPEECH_STATE_ACTIVE_DL ∧ ev.msg_type = CMTSPEECH_SPEECH_CONFIG_REQ))
    (n3 : ¬(ev.prev_state = CMTSPEECH_STATE_ACTIVE_DLUL ∧
      ev.state = CMTSPEECH_STATE_ACTIVE_DL ∧ ev.msg_type = CMTSPEECH_SPEECH_CONFIG_REQ))
    (n4 : ¬(ev.prev_state = CMTSPEECH_STATE_ACTIVE_DL ∧
      ev.state = CMTSPEECH_STATE_ACTIVE_DLUL))
    (n5 : ¬(ev.state = CMTSPEECH_STATE_ACTIVE_DLUL ∧
      ev.msg_type = CMTSPEECH_TIMING_CONFIG_NTF))
    (n6 : ¬((ev.prev_state = CMTSPEECH_STATE_ACTIVE_DL ∨
      ev.prev_state = CMTSPEECH_STATE_ACTIVE_DLUL) ∧ ev.state = CMTSPEECH_STATE_CONNECTED))
    (n7 : ¬(ev.prev_state = CMTSPEECH_STATE_CONNECTED ∧
      ev.state = CMTSPEECH_STATE_DISCONNECTED))
    (n8 : ev.msg_type ≠ CMTSPEECH_EVENT_RESET) :
    mainloop_control_event env u ev =
      some (.inr (if ev.state = CMTSPEECH_STATE_DISCONNECTED then reset_call_stream_states u
        else u)) := by
  rw [mainloop_control_event, if_neg n1, if_neg n2, if_neg n3, if_neg n4, if_neg n5, if_neg n6,
    if_neg n7, if_neg n8]
  by_cases hd : ev.state = CMTSPEECH_STATE_DISCONNECTED <;> simp [hd]

/-- A modem-reset event that matches none of the rows tested before the reset row
closes the connection and returns early. -/
theorem control_event_reset (env : Env) (u : userdata) (ev : cmtspeech_event_t)
    (n1 : ¬(ev.prev_state = CMTSPEECH_STATE_DISCONNECTED ∧
      ev.state = CMTSPEECH_STATE_CONNECTED))
    (n4 : ¬(ev.prev_state = CMTSPEECH_STATE_ACTIVE_DL ∧
      ev.state = CMTSPEECH_STATE_ACTIVE_DLUL))
    (n6 : ¬((ev.prev_state = CMTSPEECH_STATE_ACTIVE_DL ∨
      ev.prev_state = CMTSPEECH_STATE_ACTIVE_DLUL) ∧ ev.state = CMTSPEECH_STATE_CONNECTED))
    (n7 : ¬(ev.prev_state = CMTSPEECH_STATE_CONNECTED ∧
      ev.state = CMTSPEECH_STATE_DISCONNECTED))
    (hm : ev.msg_type = CMTSPEECH_EVENT_RESET) :
    mainloop_control_event env u ev =
      (close_cmtspeech_on_error env u).map Sum.inl := by
  have n2 : ¬(ev.prev_state = CMTSPEECH_STATE_CONNECTED ∧
      ev.state = CMTSPEECH_STATE_ACTIVE_DL ∧ ev.msg_type = CMTSPEECH_SPEECH_CONFIG_REQ) := by
    simp [hm]
  have n3 : ¬(ev.prev_state = CMTSPEECH_STATE_ACTIVE_DLUL ∧
      ev.state = CMTSPEECH_STATE_ACTIVE_DL ∧ ev.msg_type = CMTSPEECH_SPEECH_CONFIG_REQ) := by
    simp [hm]
  have n5 : ¬(ev.state = CMTSPEECH_STATE_ACTIVE_DLUL ∧
      ev.msg_type = CMTSPEECH_TIMING_CONFIG_NTF) := by
    simp [hm]
  rw [mainloop_control_event, if_neg n1, if_neg n2, if_neg n3, if_neg n4, if_neg n5, if_neg n6,
    if_neg n7, if_pos hm]
  cases close_cmtspeech_on_error env u <;> rfl

/-- Close-on-error, when its flush assertion holds, returns with the handle null, the
three pipeline flags false and the mutex free. It posts the stream-deletion request
exactly when streams existed. Its library calls are one release per queued frame, in
queue order, when the downlink sink is not connected, followed by exactly one
`cmtspeech_close` made under the mutex. When the sink is not connected the queue is
empty afterwards, otherwise the flush is sent to the sink input. -/
theorem close_cmtspeech_on_error_spec (env : Env) (u : userdata)
    (hfl : dl_sink_connected u = true → env.flush_dl_ret = 0) :
    ∃ v, close_cmtspeech_on_error env u = some v ∧
      v.cmt_connection.cmtspeech = none ∧
      v.cmt_connection.streams_created = false ∧
      v.cmt_connection.playback_running = false ∧
      v.cmt_connection.record_running = false ∧
      v.cmt_connection.cmtspeech_mutex = false ∧
      v.outq = u.outq ++
        (if u.cmt_connection.streams_created then [CMTSPEECH_MAINLOOP_HANDLER_DELETE_STREAMS]
         else []) ∧
      v.calls = u.calls ++
        (if dl_sink_connected u then []
         else u.cmt_connection.dl_frame_queue.cells.map (fun b =>
          ⟨.dl_buffer_release u.cmt_connection.cmtspeech b,
            u.cmt_connection.cmtspeech_mutex⟩)) ++
        [⟨.close u.cmt_connection.cmtspeech, true⟩] ∧
      v.sink_msgs = u.sink_msgs ++
        (if dl_sink_connected u then [.PA_SINK_INPUT_MESSAGE_FLUSH_DL] else []) ∧
      (dl_sink_connected u = false → v.cmt_connection.dl_frame_queue.cells = []) ∧
      v.source_msgs = u.source_msgs := by
  obtain ⟨r1, r2, r3, r4, r5, -, r7, -, r9, r10, r11, r12, r13⟩ :=
    reset_call_stream_states_spec u
  have hdc : dl_sink_connected (reset_call_stream_states u) = dl_sink_connected u := by
    simp [dl_sink_connected, r13]
  unfold close_cmtspeech_on_error
  simp only [hdc]
  by_cases hc : dl_sink_connected u = true
  · simp [hc, hfl hc, pa_mutex_lock, pa_mutex_unlock, record_call, r1, r2, r3, r4, r5, r10,
      r11, r12]
  · simp [hc, flush_dl_frame_queue_eq, pa_mutex_lock, pa_mutex_unlock, record_call, r1, r2, r3,
      r4, r5, r7, r9, r10, r11, r12]

/-- An uplink send whose release fails with an I/O error is one run of close-on-error in
the state `before_close_in_send`, after which the mutex is taken and dropped again and
the error is returned. -/
theorem cmtspeech_send_ul_frame_io_error (env : Env) (u : userdata) (buf : List Nat)
    (bytes : Nat)
    (hh : u.cmt_connection.cmtspeech ≠ none)
    (ha : env.is_active = true)
    (hacq : env.ul_buffer_acquire_ret = 0)
    (hb : bytes = env.salbuf.pcount)
    (hrel : env.ul_buffer_release_ret = - EIO) :
    cmtspeech_send_ul_frame env u buf bytes =
      (close_cmtspeech_on_error env (before_close_in_send env u buf bytes)).map
        (fun v => (- EIO, pa_mutex_unlock (pa_mutex_lock v))) := by
  obtain ⟨c, status, cleanup, tmo, src, si, cnt, outq, smsgs, kmsgs, calls, freed⟩ := u
  obtain ⟨hdl, mtx, cul, cdl, cem, fdl, rec, play, strm, q, item, tmr, ts, hnd, tsc⟩ := c
  simp only at hh
  have hneg : (- EIO : Int) < 0 := by decide
  simp only [cmtspeech_send_ul_frame, cmtspeech_send_ul_frame_run, before_close_in_send,
    filled_salbuf, pa_mutex_lock,
    pa_mutex_unlock, record_call, hh, ha, hacq, hb, hrel, hneg, if_true, if_false, ne_eq,
    not_true_eq_false, and_self, List.append_assoc, List.singleton_append, List.cons_append,
    List.nil_append]
  cases close_cmtspeech_on_error env _ <;> rfl

/-- An uplink send with no handle open returns the I/O error at once: no library call
is made and nothing but the mutex is touched. -/
theorem cmtspeech_send_ul_frame_no_handle (env : Env) (u : userdata) (buf : List Nat)
    (bytes : Nat) (hh : u.cmt_connection.cmtspeech = none) :
    cmtspeech_send_ul_frame env u buf bytes =
      some (- EIO, pa_mutex_unlock (pa_mutex_lock u)) := by
  simp [cmtspeech_send_ul_frame, cmtspeech_send_ul_frame_run, send_ul_frame_end.result,
    pa_mutex_lock, pa_mutex_unlock, hh]

/-- Close-on-error returns only when its flush assertion holds. -/
theorem close_cmtspeech_on_error_some (env : Env) (u v : userdata)
    (h : close_cmtspeech_on_error env u = some v) :
    dl_sink_connected u = true → env.flush_dl_ret = 0 := by
  intro hc
  by_contra hne
  have hdc : dl_sink_connected (reset_call_stream_states u) = true := by
    have r13 := (reset_call_stream_states_spec u).2.2.2.2.2.2.2.2.2.2.2.2
    simpa [dl_sink_connected, r13] using hc
  simp [close_cmtspeech_on_error, hdc, hne] at h

/-- An uplink send whose buffer is acquired with the right length and whose release
does not fail with the I/O error returns the result of the release, in the state
`before_close_in_send`. -/
theorem cmtspeech_send_ul_frame_released (env : Env) (u : userdata) (buf : List Nat)
    (bytes : Nat)
    (hh : u.cmt_connection.cmtspeech ≠ none)
    (ha : env.is_active = true)
    (hacq : env.ul_buffer_acquire_ret = 0)
    (hb : bytes = env.salbuf.pcount)
    (hrel : env.ul_buffer_release_ret ≠ - EIO) :
    cmtspeech_send_ul_frame env u buf bytes =
      some (env.ul_buffer_release_ret, before_close_in_send env u buf bytes) := by
  obtain ⟨c, status, cleanup, tmo, src, si, cnt, outq, smsgs, kmsgs, calls, freed⟩ := u
  obtain ⟨hdl, mtx, cul, cdl, cem, fdl, rec, play, strm, q, item, tmr, ts, hnd, tsc⟩ := c
  simp only at hh
  simp [cmtspeech_send_ul_frame, cmtspeech_send_ul_frame_run, send_ul_frame_end.result,
    before_close_in_send, filled_salbuf, pa_mutex_lock,
    pa_mutex_unlock, record_call, hh, ha, hacq, hb, hrel]

/-- An uplink send whose buffer is acquired with a length other than the capacity of
the buffer fails its assertion. -/
theorem cmtspeech_send_ul_frame_length_mismatch (env : Env) (u : userdata) (buf : List Nat)
    (bytes : Nat)
    (hh : u.cmt_connection.cmtspeech ≠ none)
    (ha : env.is_active = true)
    (hacq : env.ul_buffer_acquire_ret = 0)
    (hb : bytes ≠ env.salbuf.pcount) :
    cmtspeech_send_ul_frame env u buf bytes = none := by
  simp [cmtspeech_send_ul_frame, cmtspeech_send_ul_frame_run, send_ul_frame_end.result,
    pa_mutex_lock, pa_mutex_unlock, record_call, hh, ha, hacq, hb]

/-- An uplink send whose buffer is acquired with a length other than the capacity of
the buffer ends at the length assertion: the frame has been counted, the library calls
made are is-active and acquire, the mutex is held and the buffer is as acquired. -/
theorem cmtspeech_send_ul_frame_run_length_mismatch (env : Env) (u : userdata)
    (buf : List Nat) (bytes : Nat)
    (hh : u.cmt_connection.cmtspeech ≠ none)
    (ha : env.is_active = true)
    (hacq : env.ul_buffer_acquire_ret = 0)
    (hb : bytes ≠ env.salbuf.pcount) :
    cmtspeech_send_ul_frame_run env u buf bytes =
      .length_assert_failed
        { u with
          cmt_connection.cmtspeech_mutex := true
          ul_frame_count := (u.ul_frame_count + 1) % 2 ^ 32
          calls := u.calls ++ [⟨.is_active u.cmt_connection.cmtspeech, true⟩,
            ⟨.ul_buffer_acquire u.cmt_connection.cmtspeech, true⟩] }
        env.salbuf := by
  obtain ⟨c, status, cleanup, tmo, src, si, cnt, outq, smsgs, kmsgs, calls, freed⟩ := u
  obtain ⟨hdl, mtx, cul, cdl, cem, fdl, rec, play, strm, q, item, tmr, ts, hnd, tsc⟩ := c
  simp only at hh
  simp [cmtspeech_send_ul_frame_run, pa_mutex_lock, pa_mutex_unlock, record_call, hh, ha,
    hacq, hb]

/-- Among the release calls of a local flush made with an open handle, a frame occurs
as often as it was queued. -/
theorem released_in_flush (h : Nat) (m : Bool) (b : cmtspeech_buffer_t)
    (l : List cmtspeech_buffer_t) :
    (l.map (fun x => (⟨.dl_buffer_release (some h) x, m⟩ : call_record))).countP
      (is_release_to_handle b) = l.count b := by
  induction l with
  | nil => rfl
  | cons x rest ih =>
    rw [List.map_cons, List.countP_cons, ih, List.count_cons]
    by_cases hx : x = b
    · simp [is_release_to_handle, hx]
    · simp [is_release_to_handle, hx]

/-- A timer-path pass is the timer path, run after the timer has been re-armed when a
call is in progress, and it returns 0. -/
theorem mainloop_cmtspeech_timer (env : Env) (u : userdata) (h : timer_path_pass u) :
    mainloop_cmtspeech env u =
      some (0, mainloop_timer_path env
        (if u.cmtspeech_server_status ≠ 0 then
          { u with cmt_connection.rtpoll :=
              .absolute (env.now + CMTSPEECH_CLEANUP_TIMER_TIMEOUT) }
        else u)) := by
  obtain ⟨pfd, hp, hin⟩ := h
  unfold mainloop_cmtspeech
  rw [hp]
  simp [hin]

/-- The timer path leaves the watchdog state as it was unless that state was Active, in
which case it ends Inactive or Active. -/
theorem mainloop_timer_path_cleanup_state (env : Env) (u : userdata) :
    (u.cmtspeech_cleanup_state ≠ CMTSPEECH_CLEANUP_TIMER_ACTIVE →
      (mainloop_timer_path env u).cmtspeech_cleanup_state = u.cmtspeech_cleanup_state ∧
      (mainloop_timer_path env u).calls = u.calls ∧
      (mainloop_timer_path env u).outq = u.outq) ∧
    (u.cmtspeech_cleanup_state = CMTSPEECH_CLEANUP_TIMER_ACTIVE →
      (mainloop_timer_path env u).cmtspeech_cleanup_state = CMTSPEECH_CLEANUP_TIMER_INACTIVE ∨
      (mainloop_timer_path env u).cmtspeech_cleanup_state = CMTSPEECH_CLEANUP_TIMER_ACTIVE) := by
  constructor
  · intro hn
    by_cases hc : u.cmtspeech_server_status = 0 ∧ u.cmt_connection.cmtspeech = none <;>
      simp [mainloop_timer_path, cleanup_state_cmpxchg, hn, hc]
  · intro ha
    by_cases h1 : u.cmtspeech_server_status = 0 ∧ u.cmt_connection.cmtspeech.isSome = true
    · by_cases h2 : u.server_inactive_timeout ≤ env.now
      · by_cases h3 : env.is_active = true <;>
          simp [mainloop_timer_path, cleanup_state_cmpxchg, ha, h1, h2, h3, pa_mutex_lock,
            pa_mutex_unlock, record_call, post_mainloop_handler]
      · simp [mainloop_timer_path, cleanup_state_cmpxchg, ha, h1, h2, pa_mutex_lock,
          pa_mutex_unlock]
    · simp [mainloop_timer_path, cleanup_state_cmpxchg, ha, h1, pa_mutex_lock,
        pa_mutex_unlock]

/-- The server-status branch of the signal filter never stores CleanupInProgress: the
watchdog state is as before, or it went from Active to Inactive, or from Inactive to
Active. -/
theorem dbus_server_status_cleanup_state (env : Env) (u : userdata) (val : Bool) :
    (dbus_server_status env u val).cmtspeech_cleanup_state = u.cmtspeech_cleanup_state ∨
    (u.cmtspeech_cleanup_state = CMTSPEECH_CLEANUP_TIMER_ACTIVE ∧
      (dbus_server_status env u val).cmtspeech_cleanup_state =
        CMTSPEECH_CLEANUP_TIMER_INACTIVE) ∨
    (u.cmtspeech_cleanup_state = CMTSPEECH_CLEANUP_TIMER_INACTIVE ∧
      (dbus_server_status env u val).cmtspeech_cleanup_state =
        CMTSPEECH_CLEANUP_TIMER_ACTIVE) := by
  cases hh : u.cmt_connection.cmtspeech.isSome <;> cases val <;>
    cases hs : u.cmtspeech_cleanup_state <;>
    simp [dbus_server_status, cleanup_state_cmpxchg, pa_mutex_lock, pa_mutex_unlock,
      record_call, hh, hs]

/-- The signal filter changes the watchdog state only in its server-status branch. -/
theorem cmtspeech_dbus_filter_cleanup_state (env : Env) (u : userdata) (msg : dbus_message) :
    (cmtspeech_dbus_filter env u msg).2.cmtspeech_cleanup_state = u.cmtspeech_cleanup_state ∨
    (u.cmtspeech_cleanup_state = CMTSPEECH_CLEANUP_TIMER_ACTIVE ∧
      (cmtspeech_dbus_filter env u msg).2.cmtspeech_cleanup_state =
        CMTSPEECH_CLEANUP_TIMER_INACTIVE) ∨
    (u.cmtspeech_cleanup_state = CMTSPEECH_CLEANUP_TIMER_INACTIVE ∧
      (cmtspeech_dbus_filter env u msg).2.cmtspeech_cleanup_state =
        CMTSPEECH_CLEANUP_TIMER_ACTIVE) := by
  cases msg with
  | CSCALL_CONNECT args =>
    cases args with
    | none => exact Or.inl rfl
    | some a =>
      left
      cases hh : u.cmt_connection.cmtspeech.isSome <;>
        simp [cmtspeech_dbus_filter, pa_mutex_lock, pa_mutex_unlock, record_call, hh]
  | CSCALL_STATUS arg =>
    cases arg with
    | none => exact Or.inl rfl
    | some a =>
      cases a with
      | none => exact Or.inl rfl
      | some val => exact dbus_server_status_cleanup_state env u val
  | PHONE_SSC_STATE => exact Or.inl rfl
  | VOICECALL_CHANGE name value =>
    left
    cases name with
    | none => rfl
    | some n =>
      cases n with
      | none => rfl
      | some callstr =>
        cases value with
        | none => rfl
        | some callstate =>
          by_cases hc : callstr = "State" <;>
            cases hh : u.cmt_connection.cmtspeech.isSome <;>
            simp [cmtspeech_dbus_filter, pa_mutex_lock, pa_mutex_unlock, record_call, hh, hc]
  | OTHER => exact Or.inl rfl

/-- The teardown ends in the thread state Uninitialized and gives back each resource
once, the handler and the wake signal only when they are set. -/
theorem unload_teardown_spec (u : userdata) :
    (unload_teardown u).cmt_connection.thread_state = .CMT_UNINITIALIZED ∧
    (unload_teardown u).freed = u.freed ++
      (if u.cmt_connection.cmt_handler then [module_resource.cmt_handler] else []) ++
      (if u.cmt_connection.thread_state_change then [module_resource.thread_state_change]
       else []) ++
      [.rtpoll, .thread_mq, .dl_frame_queue, .cmtspeech_mutex] := by
  cases h1 : u.cmt_connection.cmt_handler <;> cases h2 : u.cmt_connection.thread_state_change <;>
    simp [unload_teardown, free_resource, h1, h2]

/-- The value `mainloop_cmtspeech` returns is 1 when the protocol descriptor was
readable and check-pending returned a non-negative status, and 0 otherwise. -/
theorem mainloop_cmtspeech_return_value (env : Env) (u : userdata) (r : Int) (w : userdata)
    (h : mainloop_cmtspeech env u = some (r, w)) :
    r = if (∃ pfd, u.cmt_connection.cmt_poll_item = some pfd ∧ pfd.revents &&& POLLIN ≠ 0) ∧
        0 ≤ env.check_pending_res then 1 else 0 := by
  unfold mainloop_cmtspeech at h
  cases hp : u.cmt_connection.cmt_poll_item with
  | none =>
    rw [hp] at h
    simp only [Option.some.injEq, Prod.mk.injEq] at h
    simp [hp, h.1.symm]
  | some pfd =>
    rw [hp] at h
    simp only at h
    by_cases hin : pfd.revents &&& POLLIN = 0
    · simp only [hin, ne_eq, not_true_eq_false, if_false, Option.some.injEq,
        Prod.mk.injEq] at h
      simp [hp, hin, h.1.symm]
    · have hex : ∃ q, some pfd = some q ∧ q.revents &&& POLLIN ≠ 0 := ⟨pfd, rfl, hin⟩
      simp only [hex, true_and]
      simp only [hin, ne_eq, not_false_eq_true, if_true] at h
      split at h
      · split at h
        · exact absurd h (by simp)
        · simp only [Option.some.injEq, Prod.mk.injEq] at h
          exact h.1.symm
        · split at h <;> simp only [Option.some.injEq, Prod.mk.injEq] at h <;> exact h.1.symm
      · simp only [Option.some.injEq, Prod.mk.injEq] at h
        exact h.1.symm

/-- The chain of event tests returns whenever the flush assertion of close-on-error
holds. -/
theorem mainloop_control_event_some (env : Env) (v : userdata) (ev : cmtspeech_event_t)
    (hfl : dl_sink_connected v = true → env.flush_dl_ret = 0) :
    ∃ r, mainloop_control_event env v ev = some r := by
  obtain ⟨c, hc, -⟩ := close_cmtspeech_on_error_spec env v hfl
  unfold mainloop_control_event
  rw [hc]
  split_ifs <;> exact ⟨_, rfl⟩

/-- The function `mainloop_cmtspeech` returns whenever the flush assertion of
close-on-error holds. -/
theorem mainloop_cmtspeech_returns (env : Env) (u : userdata)
    (hfl : dl_sink_connected u = true → env.flush_dl_ret = 0) :
    ∃ r w, mainloop_cmtspeech env u = some (r, w) := by
  by_cases hrc : reads_control_event env u
  · rw [mainloop_cmtspeech_control env u hrc]
    obtain ⟨r, hr⟩ := mainloop_control_event_some env (before_control_event env u) env.cmtevent hfl
    rw [hr]
    cases r with
    | inl v => exact ⟨_, _, rfl⟩
    | inr v =>
      obtain ⟨w, hw, -⟩ := after_control_event_inr env u.cmt_connection.cmtspeech v
      exact ⟨_, _, hw⟩
  · unfold mainloop_cmtspeech
    cases hp : u.cmt_connection.cmt_poll_item with
    | none => exact ⟨_, _, rfl⟩
    | some pfd =>
      simp only
      by_cases hin : pfd.revents &&& POLLIN = 0
      · simp [hin]
      · by_cases hres : 0 < env.check_pending_res
        · by_cases hctl : env.check_pending_flags &&& CMTSPEECH_EVENT_CONTROL = 0
          · simp only [hin, hres, hctl, ne_eq, not_false_eq_true, not_true_eq_false, if_true,
              if_false]
            split_ifs <;> exact ⟨_, _, rfl⟩
          · by_cases hread : env.read_event_ret = 0
            · exact absurd ⟨⟨pfd, hp, hin⟩, hres, hctl, hread⟩ hrc
            · simp only [hin, hres, hctl, hread, ne_eq, not_false_eq_true, not_true_eq_false,
                if_true, if_false]
              split_ifs <;> exact ⟨_, _, rfl⟩
        · simp only [hin, hres, ne_eq, not_false_eq_true, if_true, if_false]
          exact ⟨_, _, rfl⟩

/-- One pass through the loop of `thread_func` never leads to the label `fail`. -/
theorem thread_func_pass_never_fails (env : Env) (u w : userdata) :
    thread_func_pass env u ≠ some (.fail w) := by
  intro h
  unfold thread_func_pass at h
  simp only at h
  split at h
  · exact absurd h (by simp)
  · split_ifs at h with h1 h2
    · simp at h
    · simp at h
    · split at h
      · simp at h
      · rename_i r v hm
        have hr := mainloop_cmtspeech_return_value _ _ _ _ hm
        split_ifs at h with h3
        · split_ifs at hr <;> omega
        · simp at h

/-! ## Claims -/

/-- C1, the code at Scenario B: a downlink-data event arrives while playback_running is
false and the protocol reports inactive. The frame is acquired, but it is neither pushed
into the downlink queue nor released: the queue stays empty and the library calls of the
cycle are check-pending, is-active and acquire, with no release. -/
theorem C1_scenario_B_frame_neither_pushed_nor_released :
    (mainloop_cmtspeech scenario_B_env ready_userdata).map
      (fun r => (r.1, r.2.cmt_connection.dl_frame_queue.cells, r.2.calls)) =
    some (1, [],
      [⟨.check_pending (some 1), true⟩, ⟨.is_active (some 1), true⟩,
        ⟨.dl_buffer_acquire (some 1), true⟩]) := by
  decide

/-- C2. Scenario A: with no streams created (in particular with the three pipeline
flags false, as after `cmtspeech_connection_init`), a cycle that reads the control
event Disconnected to Connected followed by a cycle that reads only the control event
Connected to ActiveDL with a speech configuration request (any payload) posts exactly
the requests CREATE_STREAMS and CMT_DL_CONNECT, in that order, and ends with
streams_created and playback_running true and record_running and the first-frame
latch false. -/
theorem C2_scenario_A (env1 env2 : Env) (u : userdata)
    (hs : u.cmt_connection.streams_created = false)
    (h1 : reads_control_event env1 u)
    (h1p : env1.cmtevent.prev_state = CMTSPEECH_STATE_DISCONNECTED)
    (h1s : env1.cmtevent.state = CMTSPEECH_STATE_CONNECTED)
    (h2 : reads_control_event env2 u)
    (h2d : env2.check_pending_flags &&& CMTSPEECH_EVENT_DL_DATA = 0)
    (h2p : env2.cmtevent.prev_state = CMTSPEECH_STATE_CONNECTED)
    (h2s : env2.cmtevent.state = CMTSPEECH_STATE_ACTIVE_DL)
    (h2m : env2.cmtevent.msg_type = CMTSPEECH_SPEECH_CONFIG_REQ) :
    ∃ u1 u2, mainloop_cmtspeech env1 u = some (1, u1) ∧
      mainloop_cmtspeech env2 u1 = some (1, u2) ∧
      u2.outq = u.outq ++ [CMTSPEECH_MAINLOOP_HANDLER_CREATE_STREAMS,
        CMTSPEECH_MAINLOOP_HANDLER_CMT_DL_CONNECT] ∧
      u2.cmt_connection.streams_created = true ∧
      u2.cmt_connection.playback_running = true ∧
      u2.cmt_connection.record_running = false ∧
      u2.cmt_connection.first_dl_frame_received = false := by
  obtain ⟨r1, r2, r3, r4, -, r6, -⟩ := reset_call_stream_states_spec (before_control_event env1 u)
  obtain ⟨w1, hw1, a1, -, -, a4, a5, a6, a7, -, -⟩ :=
    after_control_event_inr env1 u.cmt_connection.cmtspeech
      { post_mainloop_handler (reset_call_stream_states (before_control_event env1 u))
          CMTSPEECH_MAINLOOP_HANDLER_CREATE_STREAMS with
        cmt_connection.streams_created := true }
  have e1 : mainloop_cmtspeech env1 u = some (1, w1) := by
    rw [mainloop_cmtspeech_control env1 u h1, control_event_call_starting env1 _ _ h1p h1s, hw1]
  have h2w : reads_control_event env2 w1 := by
    obtain ⟨⟨pfd, hpi, hin⟩, rest⟩ := h2
    refine ⟨⟨pfd, ?_, hin⟩, rest⟩
    rw [a4]
    show (reset_call_stream_states (before_control_event env1 u)).cmt_connection.cmt_poll_item
      = some pfd
    rw [r6]
    exact hpi
  obtain ⟨w2, hw2, b1, -, -, -, b5, b6, b7, -, b9⟩ :=
    after_control_event_inr env2 w1.cmt_connection.cmtspeech
      { post_mainloop_handler (before_control_event env2 w1)
          CMTSPEECH_MAINLOOP_HANDLER_CMT_DL_CONNECT with
        cmt_connection.playback_running := true
        cmt_connection.first_dl_frame_received := false }
  have e2 : mainloop_cmtspeech env2 w1 = some (1, w2) := by
    rw [mainloop_cmtspeech_control env2 w1 h2w,
      control_event_speech_start env2 _ _ h2p h2s h2m, hw2]
  have hs0 : (before_control_event env1 u).cmt_connection.streams_created = false := hs
  refine ⟨w1, w2, e1, e2, ?_, ?_, ?_, ?_, ?_⟩
  · rw [b1]
    show w1.outq ++ [CMTSPEECH_MAINLOOP_HANDLER_CMT_DL_CONNECT] = _
    rw [a1]
    show (reset_call_stream_states (before_control_event env1 u)).outq ++
      [CMTSPEECH_MAINLOOP_HANDLER_CREATE_STREAMS] ++ [CMTSPEECH_MAINLOOP_HANDLER_CMT_DL_CONNECT]
      = _
    rw [r4, hs0]
    show (u.outq ++ []) ++ _ ++ _ = _
    simp
  · rw [b5]
    show w1.cmt_connection.streams_created = true
    rw [a5]
  · rw [b6]
  · rw [b7]
    show w1.cmt_connection.record_running = false
    rw [a7]
    exact r3
  · rw [(b9 (Or.inr h2d)).1]

/-- Witness for C2: Scenario A from the freshly opened connection, with the payload
rate 8000, format 1, stream 0. -/
theorem C2_scenario_A_witness :
    ∃ u1 u2,
      mainloop_cmtspeech (control_env (mk_event CMTSPEECH_STATE_DISCONNECTED
        CMTSPEECH_STATE_CONNECTED (.OTHER 2))) ready_userdata = some (1, u1) ∧
      mainloop_cmtspeech (control_env scenario_A_speech_config) u1 = some (1, u2) ∧
      u2.outq = ready_userdata.outq ++ [CMTSPEECH_MAINLOOP_HANDLER_CREATE_STREAMS,
        CMTSPEECH_MAINLOOP_HANDLER_CMT_DL_CONNECT] ∧
      u2.cmt_connection.streams_created = true ∧
      u2.cmt_connection.playback_running = true ∧
      u2.cmt_connection.record_running = false ∧
      u2.cmt_connection.first_dl_frame_received = false :=
  C2_scenario_A _ _ ready_userdata rfl
    ⟨⟨_, rfl, by decide⟩, by decide, by decide, rfl⟩ rfl rfl
    ⟨⟨_, rfl, by decide⟩, by decide, by decide, rfl⟩ (by decide) rfl rfl rfl

/-- C3, as the code has it: a cycle that reads a modem-reset event whose state pair is
none of those tested before the reset row (Disconnected to Connected, ActiveDL to
ActiveDLUL, ActiveDL or ActiveDLUL to Connected, Connected to Disconnected) runs
close-on-error and returns 1 at once. Afterwards the handle is null and the three
pipeline flags are false; the only request posted is the stream deletion of
close-on-error, when streams existed; and the library calls of the cycle are
check-pending, read-event, the releases of the local flush and one close, so no downlink
frame is acquired even when the downlink-data flag is set in the same cycle. -/
theorem C3_modem_reset (env : Env) (u : userdata)
    (h : reads_control_event env u)
    (hm : env.cmtevent.msg_type = CMTSPEECH_EVENT_RESET)
    (n1 : ¬(env.cmtevent.prev_state = CMTSPEECH_STATE_DISCONNECTED ∧
      env.cmtevent.state = CMTSPEECH_STATE_CONNECTED))
    (n4 : ¬(env.cmtevent.prev_state = CMTSPEECH_STATE_ACTIVE_DL ∧
      env.cmtevent.state = CMTSPEECH_STATE_ACTIVE_DLUL))
    (n6 : ¬((env.cmtevent.prev_state = CMTSPEECH_STATE_ACTIVE_DL ∨
      env.cmtevent.prev_state = CMTSPEECH_STATE_ACTIVE_DLUL) ∧
      env.cmtevent.state = CMTSPEECH_STATE_CONNECTED))
    (n7 : ¬(env.cmtevent.prev_state = CMTSPEECH_STATE_CONNECTED ∧
      env.cmtevent.state = CMTSPEECH_STATE_DISCONNECTED))
    (hfl : dl_sink_connected u = true → env.flush_dl_ret = 0) :
    ∃ w, mainloop_cmtspeech env u = some (1, w) ∧
      w.cmt_connection.cmtspeech = none ∧
      w.cmt_connection.streams_created = false ∧
      w.cmt_connection.playback_running = false ∧
      w.cmt_connection.record_running = false ∧
      w.outq = u.outq ++
        (if u.cmt_connection.streams_created then [CMTSPEECH_MAINLOOP_HANDLER_DELETE_STREAMS]
         else []) ∧
      w.calls = u.calls ++
        [⟨.check_pending u.cmt_connection.cmtspeech, true⟩,
          ⟨.read_event u.cmt_connection.cmtspeech, true⟩] ++
        (if dl_sink_connected u then []
         else u.cmt_connection.dl_frame_queue.cells.map (fun b =>
          ⟨.dl_buffer_release u.cmt_connection.cmtspeech b, false⟩)) ++
        [⟨.close u.cmt_connection.cmtspeech, true⟩] := by
  obtain ⟨v, hv, c1, c2, c3, c4, -, c6, c7, -⟩ :=
    close_cmtspeech_on_error_spec env (before_control_event env u) hfl
  refine ⟨v, ?_, c1, c2, c3, c4, c6, c7⟩
  rw [mainloop_cmtspeech_control env u h, control_event_reset env _ _ n1 n4 n6 n7 hm, hv]
  rfl

/-- Witness for C3: a modem reset reported as Disconnected to Disconnected, with a
downlink frame pending in the same cycle and one frame queued. -/
theorem C3_modem_reset_witness :
    ∃ w, mainloop_cmtspeech
        { control_env (mk_event CMTSPEECH_STATE_DISCONNECTED CMTSPEECH_STATE_DISCONNECTED
            CMTSPEECH_EVENT_RESET) with check_pending_flags := 3 }
        { ready_userdata with
          cmt_connection.streams_created := true
          cmt_connection.dl_frame_queue.cells := [frame 7] } = some (1, w) ∧
      w.cmt_connection.cmtspeech = none ∧
      w.outq = [CMTSPEECH_MAINLOOP_HANDLER_DELETE_STREAMS] ∧
      w.calls = [⟨.check_pending (some 1), true⟩, ⟨.read_event (some 1), true⟩,
        ⟨.dl_buffer_release (some 1) (frame 7), false⟩, ⟨.close (some 1), true⟩] := by
  obtain ⟨w, hw, c1, -, -, -, c6, c7⟩ := C3_modem_reset
    { control_env (mk_event CMTSPEECH_STATE_DISCONNECTED CMTSPEECH_STATE_DISCONNECTED
        CMTSPEECH_EVENT_RESET) with check_pending_flags := 3 }
    { ready_userdata with
      cmt_connection.streams_created := true
      cmt_connection.dl_frame_queue.cells := [frame 7] }
    ⟨⟨_, rfl, by decide⟩, by decide, by decide, rfl⟩ rfl
    (by decide) (by decide) (by decide) (by decide) (by decide)
  exact ⟨w, hw, c1, c6, c7⟩

/-- C3, the claim as stated fails: a modem-reset event reported with the state pair
Disconnected to Connected is handled by the call-starting row. The cycle returns 1
with the handle still open, the stream-creation request posted, and no close call. -/
theorem C3_reset_not_for_any_states :
    (mainloop_cmtspeech
        (control_env (mk_event CMTSPEECH_STATE_DISCONNECTED CMTSPEECH_STATE_CONNECTED
          CMTSPEECH_EVENT_RESET)) ready_userdata).map
      (fun r => (r.1, r.2.cmt_connection.cmtspeech, r.2.outq, r.2.calls)) =
    some (1, some 1, [CMTSPEECH_MAINLOOP_HANDLER_CREATE_STREAMS],
      [⟨.check_pending (some 1), true⟩, ⟨.read_event (some 1), true⟩]) := by
  decide

/-- C4, as the code has it: a cycle that reads a control event with state ActiveDLUL and
a timing notification, from any previous state other than ActiveDL, returns 1 having
computed the uplink deadline and forwarded it to the source when the source is linked
(and to nobody otherwise); nothing is posted to the main-loop handler and the three
pipeline flags are as before. -/
theorem C4_timing_config (env : Env) (u : userdata)
    (h : reads_control_event env u)
    (hp : env.cmtevent.prev_state ≠ CMTSPEECH_STATE_ACTIVE_DL)
    (hs : env.cmtevent.state = CMTSPEECH_STATE_ACTIVE_DLUL)
    (hm : env.cmtevent.msg_type = CMTSPEECH_TIMING_CONFIG_NTF) :
    ∃ w, mainloop_cmtspeech env u = some (1, w) ∧
      w.source_msgs = u.source_msgs ++
        (if source_linked u then
          [.VOICE_SOURCE_SET_UL_DEADLINE (uplink_deadline env.cmtevent.timing_config_ntf)]
         else []) ∧
      w.outq = u.outq ∧
      w.cmt_connection.streams_created = u.cmt_connection.streams_created ∧
      w.cmt_connection.playback_running = u.cmt_connection.playback_running ∧
      w.cmt_connection.record_running = u.cmt_connection.record_running := by
  obtain ⟨w, hw, a1, a2, -, -, a5, a6, a7, -⟩ :=
    after_control_event_inr env u.cmt_connection.cmtspeech
      (update_uplink_frame_timing (before_control_event env u) env.cmtevent)
  obtain ⟨t1, t2, t3⟩ :=
    update_uplink_frame_timing_spec (before_control_event env u) env.cmtevent
  refine ⟨w, ?_, ?_, ?_, ?_, ?_, ?_⟩
  · rw [mainloop_cmtspeech_control env u h, control_event_timing env _ _ hp hs hm, hw]
  · rw [a2, t1]
    rfl
  · rw [a1, t2]
    rfl
  · rw [a5, t3]
    rfl
  · rw [a6, t3]
    rfl
  · rw [a7, t3]
    rfl

/-- Witness for C4: the timing notification of Scenario C arrives in state ActiveDLUL
with the source linked. -/
theorem C4_timing_config_witness :
    ∃ w, mainloop_cmtspeech (control_env scenario_C_event)
        { ready_userdata with
          source := some { linked := true }
          cmt_connection.record_running := true } = some (1, w) ∧
      w.source_msgs = [.VOICE_SOURCE_SET_UL_DEADLINE 100017500] ∧
      w.outq = [] ∧
      w.cmt_connection.record_running = true := by
  obtain ⟨w, hw, c1, c2, -, -, c5⟩ := C4_timing_config (control_env scenario_C_event)
    { ready_userdata with
      source := some { linked := true }
      cmt_connection.record_running := true }
    ⟨⟨_, rfl, by decide⟩, by decide, by decide, rfl⟩ (by decide) rfl rfl
  exact ⟨w, hw, c1, c2, c5⟩

/-- C4, the claim as stated fails for the previous state ActiveDL: a timing notification
on the transition ActiveDL to ActiveDLUL is handled by the uplink-enabling row. With the
source linked, the cycle posts the uplink-connect request, sets record_running, and
forwards no deadline. -/
theorem C4_timing_not_for_any_prev_state :
    (mainloop_cmtspeech
        (control_env { scenario_C_event with prev_state := CMTSPEECH_STATE_ACTIVE_DL })
        { ready_userdata with source := some { linked := true } }).map
      (fun r => (r.1, r.2.source_msgs, r.2.outq, r.2.cmt_connection.record_running)) =
    some (1, [], [CMTSPEECH_MAINLOOP_HANDLER_CMT_UL_CONNECT], true) := by
  decide

/-- C5. For a timing notification whose fields are in range (usec is 16-bit, the
timestamp is a normalised timespec whose microsecond value and deadline fit a signed
64-bit integer), `update_uplink_frame_timing` computes
deadline_us = (msec mod 20) * 1000 + usec and the absolute deadline
tv_sec * 1000000 + tv_nsec / 1000 + deadline_us, and forwards exactly one message
carrying that absolute deadline to the source when the source is linked (none
otherwise); nothing else changes. In Scenario C deadline_us is 17500 and the value
forwarded is 100000000 + 17500. -/
theorem C5_update_uplink_frame_timing (u : userdata) (ev : cmtspeech_event_t)
    (husec : ev.timing_config_ntf.usec < 2 ^ 16)
    (hnsec : 0 ≤ ev.timing_config_ntf.tstamp.tv_nsec)
    (hlo : -(2 : Int) ^ 63 ≤ ev.timing_config_ntf.tstamp.tv_sec * 1000000)
    (hhi : ev.timing_config_ntf.tstamp.tv_sec * 1000000 +
        ev.timing_config_ntf.tstamp.tv_nsec / 1000 +
        ((ev.timing_config_ntf.msec % 20) * 1000 + ev.timing_config_ntf.usec : Nat) < 2 ^ 63) :
    deadline_us ev.timing_config_ntf =
        ((ev.timing_config_ntf.msec % 20) * 1000 + ev.timing_config_ntf.usec : Nat) ∧
    uplink_deadline ev.timing_config_ntf =
        ev.timing_config_ntf.tstamp.tv_sec * 1000000 +
          ev.timing_config_ntf.tstamp.tv_nsec / 1000 + deadline_us ev.timing_config_ntf ∧
    (update_uplink_frame_timing u ev).source_msgs = u.source_msgs ++
      (if source_linked u then
        [.VOICE_SOURCE_SET_UL_DEADLINE
          (ev.timing_config_ntf.tstamp.tv_sec * 1000000 +
            ev.timing_config_ntf.tstamp.tv_nsec / 1000 +
            ((ev.timing_config_ntf.msec % 20) * 1000 + ev.timing_config_ntf.usec : Nat))]
       else []) ∧
    (update_uplink_frame_timing u ev).outq = u.outq ∧
    (update_uplink_frame_timing u ev).cmt_connection = u.cmt_connection ∧
    deadline_us scenario_C_ntf = 17500 ∧
    uplink_deadline scenario_C_ntf = 100 * 1000000 + 300 / 1000 + 17500 := by
  have hd : deadline_us ev.timing_config_ntf =
      ((ev.timing_config_ntf.msec % 20) * 1000 + ev.timing_config_ntf.usec : Nat) := by
    unfold deadline_us wrap_int32
    push_cast
    omega
  have ht : Int.tdiv ev.timing_config_ntf.tstamp.tv_nsec 1000 =
      ev.timing_config_ntf.tstamp.tv_nsec / 1000 :=
    Int.tdiv_eq_ediv hnsec (by decide)
  have hq : 0 ≤ ev.timing_config_ntf.tstamp.tv_nsec / 1000 :=
    Int.ediv_nonneg hnsec (by decide)
  have hu : uplink_deadline ev.timing_config_ntf =
      ev.timing_config_ntf.tstamp.tv_sec * 1000000 +
        ev.timing_config_ntf.tstamp.tv_nsec / 1000 +
        ((ev.timing_config_ntf.msec % 20) * 1000 + ev.timing_config_ntf.usec : Nat) := by
    unfold uplink_deadline
    rw [hd, ht]
    unfold wrap_int64
    push_cast at hhi ⊢
    omega
  obtain ⟨t1, t2, t3⟩ := update_uplink_frame_timing_spec u ev
  refine ⟨hd, ?_, ?_, t2, t3, by decide, by decide⟩
  · rw [hu, hd]
  · rw [t1, hu]

/-- Witness for C5: Scenario C forwarded to a linked source. -/
theorem C5_update_uplink_frame_timing_witness :
    (update_uplink_frame_timing { init_userdata with source := some { linked := true } }
        scenario_C_event).source_msgs
      = [.VOICE_SOURCE_SET_UL_DEADLINE 100017500] := by
  have h := (C5_update_uplink_frame_timing
    { init_userdata with source := some { linked := true } } scenario_C_event
    (by decide) (by decide) (by decide) (by decide)).2.2.1
  simpa [init_userdata, scenario_C_ntf, scenario_C_event, mk_event, source_linked] using h

/-- C6. A cycle that reads a control event Connected to Disconnected, of any message
type and from any flags, returns 1 having posted the stream-deletion request exactly
once and nothing else, with streams_created, playback_running and record_running all
false. -/
theorem C6_connected_to_disconnected (env : Env) (u : userdata)
    (h : reads_control_event env u)
    (hp : env.cmtevent.prev_state = CMTSPEECH_STATE_CONNECTED)
    (hs : env.cmtevent.state = CMTSPEECH_STATE_DISCONNECTED) :
    ∃ w, mainloop_cmtspeech env u = some (1, w) ∧
      w.outq = u.outq ++ [CMTSPEECH_MAINLOOP_HANDLER_DELETE_STREAMS] ∧
      w.cmt_connection.streams_created = false ∧
      w.cmt_connection.playback_running = false ∧
      w.cmt_connection.record_running = false := by
  obtain ⟨r1, r2, r3, r4, -⟩ := reset_call_stream_states_spec
    { post_mainloop_handler (before_control_event env u)
        CMTSPEECH_MAINLOOP_HANDLER_DELETE_STREAMS with
      cmt_connection.streams_created := false }
  obtain ⟨w, hw, a1, -, -, -, a5, a6, a7, -⟩ :=
    after_control_event_inr env u.cmt_connection.cmtspeech
      (reset_call_stream_states
        { post_mainloop_handler (before_control_event env u)
            CMTSPEECH_MAINLOOP_HANDLER_DELETE_STREAMS with
          cmt_connection.streams_created := false })
  refine ⟨w, ?_, ?_, ?_, ?_, ?_⟩
  · rw [mainloop_cmtspeech_control env u h, control_event_call_terminated env _ _ hp hs, hw]
  · rw [a1, r4]
    show (u.outq ++ [CMTSPEECH_MAINLOOP_HANDLER_DELETE_STREAMS]) ++
      (if false = true then [CMTSPEECH_MAINLOOP_HANDLER_DELETE_STREAMS] else []) = _
    simp
  · rw [a5, r1]
  · rw [a6, r2]
  · rw [a7, r3]

/-- Witness for C6: the call ends while streams exist and both directions run. -/
theorem C6_connected_to_disconnected_witness :
    ∃ w, mainloop_cmtspeech
        (control_env (mk_event CMTSPEECH_STATE_CONNECTED CMTSPEECH_STATE_DISCONNECTED (.OTHER 0)))
        { ready_userdata with
          cmt_connection.streams_created := true
          cmt_connection.playback_running := true
          cmt_connection.record_running := true } = some (1, w) ∧
      w.outq = [] ++ [CMTSPEECH_MAINLOOP_HANDLER_DELETE_STREAMS] ∧
      w.cmt_connection.streams_created = false ∧
      w.cmt_connection.playback_running = false ∧
      w.cmt_connection.record_running = false :=
  C6_connected_to_disconnected _ _ ⟨⟨_, rfl, by decide⟩, by decide, by decide, rfl⟩ rfl rfl

/-- C7. A cycle that reads a control event from ActiveDL or ActiveDLUL to Connected, of
any message type, returns 1 having posted exactly the downlink-disconnect request
followed by the uplink-disconnect request, with playback_running and record_running
false and the uplink frame counter 0; streams_created and the first-frame latch are as
before. -/
theorem C7_active_to_connected (env : Env) (u : userdata)
    (h : reads_control_event env u)
    (hp : env.cmtevent.prev_state = CMTSPEECH_STATE_ACTIVE_DL ∨
      env.cmtevent.prev_state = CMTSPEECH_STATE_ACTIVE_DLUL)
    (hs : env.cmtevent.state = CMTSPEECH_STATE_CONNECTED) :
    ∃ w, mainloop_cmtspeech env u = some (1, w) ∧
      w.outq = u.outq ++ [CMTSPEECH_MAINLOOP_HANDLER_CMT_DL_DISCONNECT,
        CMTSPEECH_MAINLOOP_HANDLER_CMT_UL_DISCONNECT] ∧
      w.cmt_connection.playback_running = false ∧
      w.cmt_connection.record_running = false ∧
      w.ul_frame_count = 0 ∧
      w.cmt_connection.streams_created = u.cmt_connection.streams_created ∧
      w.cmt_connection.first_dl_frame_received = u.cmt_connection.first_dl_frame_received := by
  obtain ⟨w, hw, a1, -, -, -, a5, a6, a7, a8, a9⟩ :=
    after_control_event_inr env u.cmt_connection.cmtspeech
      { post_mainloop_handler
          (post_mainloop_handler (before_control_event env u)
            CMTSPEECH_MAINLOOP_HANDLER_CMT_DL_DISCONNECT)
          CMTSPEECH_MAINLOOP_HANDLER_CMT_UL_DISCONNECT with
        cmt_connection.playback_running := false
        cmt_connection.record_running := false
        ul_frame_count := 0 }
  refine ⟨w, ?_, ?_, ?_, ?_, ?_, ?_, ?_⟩
  · rw [mainloop_cmtspeech_control env u h, control_event_speech_stop env _ _ hp hs, hw]
  · rw [a1]
    show (u.outq ++ [CMTSPEECH_MAINLOOP_HANDLER_CMT_DL_DISCONNECT]) ++
      [CMTSPEECH_MAINLOOP_HANDLER_CMT_UL_DISCONNECT] = _
    simp
  · rw [a6]
  · rw [a7]
  · rw [a8]
  · rw [a5]
    rfl
  · rw [(a9 (Or.inl rfl)).1]
    rfl

/-- Witness for C7: speech stops on an ActiveDLUL connection with both directions
running, while a downlink frame is pending in the same cycle. -/
theorem C7_active_to_connected_witness :
    ∃ w, mainloop_cmtspeech
        { control_env (mk_event CMTSPEECH_STATE_ACTIVE_DLUL CMTSPEECH_STATE_CONNECTED
            (.OTHER 0)) with check_pending_flags := 3 }
        { ready_userdata with
          cmt_connection.streams_created := true
          cmt_connection.playback_running := true
          cmt_connection.record_running := true
          cmt_connection.first_dl_frame_received := true
          ul_frame_count := 7 } = some (1, w) ∧
      w.outq = [] ++ [CMTSPEECH_MAINLOOP_HANDLER_CMT_DL_DISCONNECT,
        CMTSPEECH_MAINLOOP_HANDLER_CMT_UL_DISCONNECT] ∧
      w.cmt_connection.playback_running = false ∧
      w.cmt_connection.record_running = false ∧
      w.ul_frame_count = 0 ∧
      w.cmt_connection.streams_created = true ∧
      w.cmt_connection.first_dl_frame_received = true :=
  C7_active_to_connected _ _ ⟨⟨_, rfl, by decide⟩, by decide, by decide, rfl⟩ (Or.inr rfl) rfl

/-- C8. A cycle that reads a control event matching no row of the chain of event tests
returns 1. When the event state is not Disconnected, nothing is posted to the main-loop
handler or to the source and the three pipeline flags, the uplink frame counter and the
handle are as before. When the event state is Disconnected the local reset is applied:
the three pipeline flags are false afterwards, and the only request posted is the
stream deletion of the reset, when streams existed. -/
theorem C8_unrecognized_event (env : Env) (u : userdata)
    (h : reads_control_event env u)
    (n1 : ¬(env.cmtevent.prev_state = CMTSPEECH_STATE_DISCONNECTED ∧
      env.cmtevent.state = CMTSPEECH_STATE_CONNECTED))
    (n2 : ¬(env.cmtevent.prev_state = CMTSPEECH_STATE_CONNECTED ∧
      env.cmtevent.state = CMTSPEECH_STATE_ACTIVE_DL ∧
      env.cmtevent.msg_type = CMTSPEECH_SPEECH_CONFIG_REQ))
    (n3 : ¬(env.cmtevent.prev_state = CMTSPEECH_STATE_ACTIVE_DLUL ∧
      env.cmtevent.state = CMTSPEECH_STATE_ACTIVE_DL ∧
      env.cmtevent.msg_type = CMTSPEECH_SPEECH_CONFIG_REQ))
    (n4 : ¬(env.cmtevent.prev_state = CMTSPEECH_STATE_ACTIVE_DL ∧
      env.cmtevent.state = CMTSPEECH_STATE_ACTIVE_DLUL))
    (n5 : ¬(env.cmtevent.state = CMTSPEECH_STATE_ACTIVE_DLUL ∧
      env.cmtevent.msg_type = CMTSPEECH_TIMING_CONFIG_NTF))
    (n6 : ¬((env.cmtevent.prev_state = CMTSPEECH_STATE_ACTIVE_DL ∨
      env.cmtevent.prev_state = CMTSPEECH_STATE_ACTIVE_DLUL) ∧
      env.cmtevent.state = CMTSPEECH_STATE_CONNECTED))
    (n7 : ¬(env.cmtevent.prev_state = CMTSPEECH_STATE_CONNECTED ∧
      env.cmtevent.state = CMTSPEECH_STATE_DISCONNECTED))
    (n8 : env.cmtevent.msg_type ≠ CMTSPEECH_EVENT_RESET) :
    ∃ w, mainloop_cmtspeech env u = some (1, w) ∧
      (env.cmtevent.state ≠ CMTSPEECH_STATE_DISCONNECTED →
        w.outq = u.outq ∧ w.source_msgs = u.source_msgs ∧
        w.cmt_connection.streams_created = u.cmt_connection.streams_created ∧
        w.cmt_connection.playback_running = u.cmt_connection.playback_running ∧
        w.cmt_connection.record_running = u.cmt_connection.record_running ∧
        w.ul_frame_count = u.ul_frame_count ∧
        w.cmt_connection.cmtspeech = u.cmt_connection.cmtspeech) ∧
      (env.cmtevent.state = CMTSPEECH_STATE_DISCONNECTED →
        w.cmt_connection.streams_created = false ∧
        w.cmt_connection.playback_running = false ∧
        w.cmt_connection.record_running = false ∧
        w.outq = u.outq ++
          (if u.cmt_connection.streams_created then
            [CMTSPEECH_MAINLOOP_HANDLER_DELETE_STREAMS] else [])) := by
  obtain ⟨r1, r2, r3, r4, -⟩ := reset_call_stream_states_spec (before_control_event env u)
  obtain ⟨w, hw, a1, a2, a3, -, a5, a6, a7, a8, -⟩ :=
    after_control_event_inr env u.cmt_connection.cmtspeech
      (if env.cmtevent.state = CMTSPEECH_STATE_DISCONNECTED then
        reset_call_stream_states (before_control_event env u)
      else before_control_event env u)
  refine ⟨w, ?_, ?_, ?_⟩
  · rw [mainloop_cmtspeech_control env u h,
      control_event_unrecognized env _ _ n1 n2 n3 n4 n5 n6 n7 n8, hw]
  · intro hd
    rw [if_neg hd] at a1 a2 a3 a5 a6 a7 a8
    exact ⟨a1, a2, a5, a6, a7, a8, a3⟩
  · intro hd
    rw [if_pos hd] at a1 a5 a6 a7
    exact ⟨a5.trans r1, a6.trans r2, a7.trans r3, a1.trans r4⟩

/-- Witness for C8: an event ActiveDL to Disconnected, which no row names, on a
connection with streams created and playback running. -/
theorem C8_unrecognized_event_witness :
    ∃ w, mainloop_cmtspeech
        (control_env (mk_event CMTSPEECH_STATE_ACTIVE_DL CMTSPEECH_STATE_DISCONNECTED
          (.OTHER 0)))
        { ready_userdata with
          cmt_connection.streams_created := true
          cmt_connection.playback_running := true } = some (1, w) ∧
      w.cmt_connection.streams_created = false ∧
      w.cmt_connection.playback_running = false ∧
      w.cmt_connection.record_running = false ∧
      w.outq = [CMTSPEECH_MAINLOOP_HANDLER_DELETE_STREAMS] := by
  obtain ⟨w, hw, -, hd⟩ := C8_unrecognized_event
    (control_env (mk_event CMTSPEECH_STATE_ACTIVE_DL CMTSPEECH_STATE_DISCONNECTED (.OTHER 0)))
    { ready_userdata with
      cmt_connection.streams_created := true
      cmt_connection.playback_running := true }
    ⟨⟨_, rfl, by decide⟩, by decide, by decide, rfl⟩
    (by decide) (by decide) (by decide) (by decide) (by decide) (by decide) (by decide)
    (by decide)
  exact ⟨w, hw, (hd rfl).1, (hd rfl).2.1, (hd rfl).2.2.1, (hd rfl).2.2.2⟩

/-- C9. Downlink hand-off: when the non-blocking push fails (no free cell), the frame
is released to the protocol handle exactly once, with the mutex held, the queue and
everything else is as before, and the result is -1; when the push succeeds nothing is
released, the frame is the last entry of the queue, and the result is 0. -/
theorem C9_push_cmtspeech_buffer_to_dl_queue (u : userdata) (buf : cmtspeech_buffer_t) :
    if u.cmt_connection.dl_frame_queue.cells.length < u.cmt_connection.dl_frame_queue.size then
      (push_cmtspeech_buffer_to_dl_queue u buf).1 = 0 ∧
      (push_cmtspeech_buffer_to_dl_queue u buf).2.calls = u.calls ∧
      (push_cmtspeech_buffer_to_dl_queue u buf).2.cmt_connection.dl_frame_queue.cells =
        u.cmt_connection.dl_frame_queue.cells ++ [buf] ∧
      (push_cmtspeech_buffer_to_dl_queue u buf).2.cmt_connection.dl_frame_queue.cells.getLast?
        = some buf
    else
      (push_cmtspeech_buffer_to_dl_queue u buf).1 = -1 ∧
      (push_cmtspeech_buffer_to_dl_queue u buf).2.calls =
        u.calls ++ [⟨.dl_buffer_release u.cmt_connection.cmtspeech buf, true⟩] ∧
      (push_cmtspeech_buffer_to_dl_queue u buf).2.cmt_connection.dl_frame_queue =
        u.cmt_connection.dl_frame_queue := by
  by_cases h : u.cmt_connection.dl_frame_queue.cells.length < u.cmt_connection.dl_frame_queue.size
  · simp [h, push_cmtspeech_buffer_to_dl_queue, pa_asyncq_push]
  · simp [h, push_cmtspeech_buffer_to_dl_queue, pa_asyncq_push, pa_mutex_lock, pa_mutex_unlock,
      record_call]

/-- C10. Scenario D: an uplink send with a handle open, the protocol active, the buffer
acquired (with the frame length equal to its capacity) and the release failing with the
I/O error runs close-on-error exactly once (the library calls of the send are
is-active, acquire, release, the releases of the local flush, and one close), leaves
the handle null and returns the I/O error. Every later send made while the handle is
null returns the I/O error without any library call, so without acquiring a buffer. -/
theorem C10_scenario_D (env : Env) (u : userdata) (buf : List Nat) (bytes : Nat)
    (hh : u.cmt_connection.cmtspeech ≠ none)
    (ha : env.is_active = true)
    (hacq : env.ul_buffer_acquire_ret = 0)
    (hb : bytes = env.salbuf.pcount)
    (hrel : env.ul_buffer_release_ret = - EIO)
    (hfl : dl_sink_connected u = true → env.flush_dl_ret = 0) :
    ∃ w, cmtspeech_send_ul_frame env u buf bytes = some (- EIO, w) ∧
      w.cmt_connection.cmtspeech = none ∧
      w.calls = u.calls ++
        [⟨.is_active u.cmt_connection.cmtspeech, true⟩,
          ⟨.ul_buffer_acquire u.cmt_connection.cmtspeech, true⟩,
          ⟨.ul_buffer_release u.cmt_connection.cmtspeech (filled_salbuf env buf bytes), true⟩]
        ++
        (if dl_sink_connected u then []
         else u.cmt_connection.dl_frame_queue.cells.map (fun b =>
          ⟨.dl_buffer_release u.cmt_connection.cmtspeech b, false⟩)) ++
        [⟨.close u.cmt_connection.cmtspeech, true⟩] ∧
      ∀ (env2 : Env) (u2 : userdata) (buf2 : List Nat) (bytes2 : Nat),
        u2.cmt_connection.cmtspeech = none →
        ∃ w2, cmtspeech_send_ul_frame env2 u2 buf2 bytes2 = some (- EIO, w2) ∧
          w2.calls = u2.calls ∧ w2.cmt_connection.cmtspeech = none := by
  obtain ⟨v, hv, c1, -, -, -, -, -, c7, -⟩ :=
    close_cmtspeech_on_error_spec env (before_close_in_send env u buf bytes) hfl
  refine ⟨pa_mutex_unlock (pa_mutex_lock v), ?_, c1, c7, ?_⟩
  · rw [cmtspeech_send_ul_frame_io_error env u buf bytes hh ha hacq hb hrel, hv]
    rfl
  · intro env2 u2 buf2 bytes2 h2
    exact ⟨_, cmtspeech_send_ul_frame_no_handle env2 u2 buf2 bytes2 h2, rfl, h2⟩

/-- Witness for C10: Scenario D on the freshly opened connection with one downlink frame
still queued. -/
theorem C10_scenario_D_witness :
    ∃ w, cmtspeech_send_ul_frame scenario_D_env
        { ready_userdata with cmt_connection.dl_frame_queue.cells := [frame 7] }
        [1, 2, 3, 4] 4 = some (- EIO, w) ∧
      w.cmt_connection.cmtspeech = none ∧
      w.calls = [⟨.is_active (some 1), true⟩, ⟨.ul_buffer_acquire (some 1), true⟩,
        ⟨.ul_buffer_release (some 1) ⟨200, 4, 4, [1, 2, 3, 4]⟩, true⟩,
        ⟨.dl_buffer_release (some 1) (frame 7), false⟩, ⟨.close (some 1), true⟩] := by
  obtain ⟨w, hw, c1, c2, -⟩ := C10_scenario_D scenario_D_env
    { ready_userdata with cmt_connection.dl_frame_queue.cells := [frame 7] }
    [1, 2, 3, 4] 4 (by decide) rfl rfl rfl rfl (by decide)
  exact ⟨w, hw, c1, c2⟩

/-- C11. In an uplink send that acquires a buffer, a length other than the capacity
pcount of the buffer ends the call at the assertion, whatever the release and the flush
would return. At that moment the library calls made are is-active and acquire only, so
the buffer has not been released, and the buffer is the acquired one with its payload
untouched, so no byte has been copied. A send that returns has length pcount and has
released the buffer filled by the copy, which replaces exactly the first pcount bytes
of the payload: a payload of pcount bytes keeps that length. -/
theorem C11_send_length_checked (env : Env) (u : userdata) (buf : List Nat) (bytes : Nat)
    (hh : u.cmt_connection.cmtspeech ≠ none)
    (ha : env.is_active = true)
    (hacq : env.ul_buffer_acquire_ret = 0) :
    (bytes ≠ env.salbuf.pcount →
      ∃ v, cmtspeech_send_ul_frame_run env u buf bytes =
          .length_assert_failed v env.salbuf ∧
        v.calls = u.calls ++
          [⟨.is_active u.cmt_connection.cmtspeech, true⟩,
            ⟨.ul_buffer_acquire u.cmt_connection.cmtspeech, true⟩] ∧
        v.cmt_connection.cmtspeech = u.cmt_connection.cmtspeech ∧
        v.cmt_connection.cmtspeech_mutex = true ∧
        cmtspeech_send_ul_frame env u buf bytes = none) ∧
    (∀ r w, cmtspeech_send_ul_frame_run env u buf bytes = .returned r w →
      bytes = env.salbuf.pcount ∧
      ∃ rest, w.calls = u.calls ++
        [⟨.is_active u.cmt_connection.cmtspeech, true⟩,
          ⟨.ul_buffer_acquire u.cmt_connection.cmtspeech, true⟩,
          ⟨.ul_buffer_release u.cmt_connection.cmtspeech
            (filled_salbuf env buf env.salbuf.pcount), true⟩] ++ rest) ∧
    (filled_salbuf env buf env.salbuf.pcount).payload =
      buf.take env.salbuf.pcount ++ env.salbuf.payload.drop env.salbuf.pcount ∧
    (env.salbuf.payload.length = env.salbuf.pcount → env.salbuf.pcount ≤ buf.length →
      (filled_salbuf env buf env.salbuf.pcount).payload.length = env.salbuf.pcount) := by
  refine ⟨?_, ?_, rfl, ?_⟩
  · intro hb
    refine ⟨_, cmtspeech_send_ul_frame_run_length_mismatch env u buf bytes hh ha hacq hb,
      rfl, rfl, rfl, ?_⟩
    exact cmtspeech_send_ul_frame_length_mismatch env u buf bytes hh ha hacq hb
  · intro r w hrun
    have hw : cmtspeech_send_ul_frame env u buf bytes = some (r, w) := by
      unfold cmtspeech_send_ul_frame
      rw [hrun]
      rfl
    by_cases hb : bytes = env.salbuf.pcount
    · refine ⟨hb, ?_⟩
      by_cases hrel : env.ul_buffer_release_ret = - EIO
      · rw [cmtspeech_send_ul_frame_io_error env u buf bytes hh ha hacq hb hrel] at hw
        cases hc : close_cmtspeech_on_error env (before_close_in_send env u buf bytes) with
        | none => simp [hc] at hw
        | some v =>
          obtain ⟨v', hv', -, -, -, -, -, -, c7, -⟩ :=
            close_cmtspeech_on_error_spec env (before_close_in_send env u buf bytes)
              (close_cmtspeech_on_error_some env _ v hc)
          rw [hv'] at hw
          simp only [Option.map_some', Option.some.injEq, Prod.mk.injEq] at hw
          obtain ⟨-, rfl⟩ := hw
          refine ⟨(if dl_sink_connected u then []
            else u.cmt_connection.dl_frame_queue.cells.map (fun b =>
              ⟨.dl_buffer_release u.cmt_connection.cmtspeech b, false⟩)) ++
            [⟨.close u.cmt_connection.cmtspeech, true⟩], ?_⟩
          show v'.calls = _
          rw [c7, ← hb]
          simp only [before_close_in_send, List.append_assoc]
          rfl
      · rw [cmtspeech_send_ul_frame_released env u buf bytes hh ha hacq hb hrel] at hw
        simp only [Option.some.injEq, Prod.mk.injEq] at hw
        obtain ⟨-, rfl⟩ := hw
        exact ⟨[], by simp [before_close_in_send, hb]⟩
    · rw [cmtspeech_send_ul_frame_length_mismatch env u buf bytes hh ha hacq hb] at hw
      exact absurd hw (by simp)
  · intro hl hle
    simp [filled_salbuf, memcpy, hl, hle]

/-- Witness for C11: a three byte frame offered for a four byte buffer ends the call at
the assertion, with the buffer as acquired and no release among the library calls. -/
theorem C11_send_length_checked_witness :
    ∃ v, cmtspeech_send_ul_frame_run scenario_D_env ready_userdata [1, 2, 3] 3 =
        .length_assert_failed v ⟨200, 4, 4, [0, 0, 0, 0]⟩ ∧
      v.calls = [⟨.is_active (some 1), true⟩, ⟨.ul_buffer_acquire (some 1), true⟩] := by
  obtain ⟨v, hv, c1, -⟩ := (C11_send_length_checked scenario_D_env ready_userdata [1, 2, 3] 3
    (by decide) rfl rfl).1 (by decide)
  exact ⟨v, hv, c1⟩

/-- C12, the code where no handle is open: the uplink send returns the negated errno of
an I/O error, which is -5, and not -1. -/
theorem C12_send_without_handle_returns_EIO :
    (cmtspeech_send_ul_frame scenario_D_env init_userdata [1, 2, 3, 4] 4).map Prod.fst =
      some (-5) ∧ (-5 : Int) ≠ -1 := by
  decide

/-- C13, as the code has it: close-on-error, entered in any state in which its flush
assertion holds (with or without a handle open), returns with the handle null and
streams_created, playback_running and record_running false. The requests it posts are
the stream deletion, exactly when streams_created was true on entry, and nothing else.
When the downlink sink is not connected, the downlink queue is empty on return, and if
a handle is open on entry the library calls made are one release to that handle per
queued frame, in queue order, followed by one close: every frame has been released to
the handle once for each time it was queued. -/
theorem C13_close_cmtspeech_on_error (env : Env) (u : userdata)
    (hfl : dl_sink_connected u = true → env.flush_dl_ret = 0) :
    ∃ v, close_cmtspeech_on_error env u = some v ∧
      v.cmt_connection.cmtspeech = none ∧
      v.cmt_connection.streams_created = false ∧
      v.cmt_connection.playback_running = false ∧
      v.cmt_connection.record_running = false ∧
      v.outq = u.outq ++
        (if u.cmt_connection.streams_created then [CMTSPEECH_MAINLOOP_HANDLER_DELETE_STREAMS]
         else []) ∧
      (dl_sink_connected u = false →
        v.cmt_connection.dl_frame_queue.cells = [] ∧
        ∀ h, u.cmt_connection.cmtspeech = some h →
          v.calls = u.calls ++
            u.cmt_connection.dl_frame_queue.cells.map (fun b =>
              ⟨.dl_buffer_release (some h) b, u.cmt_connection.cmtspeech_mutex⟩) ++
            [⟨.close (some h), true⟩] ∧
          ∀ b, released_to_handle v.calls b =
            released_to_handle u.calls b + u.cmt_connection.dl_frame_queue.cells.count b) := by
  obtain ⟨v, hv, c1, c2, c3, c4, -, c6, c7, -, c9, -⟩ := close_cmtspeech_on_error_spec env u hfl
  refine ⟨v, hv, c1, c2, c3, c4, c6, ?_⟩
  intro hn
  refine ⟨c9 hn, ?_⟩
  intro h hh
  have hcalls : v.calls = u.calls ++
      u.cmt_connection.dl_frame_queue.cells.map (fun b =>
        ⟨.dl_buffer_release (some h) b, u.cmt_connection.cmtspeech_mutex⟩) ++
      [⟨.close (some h), true⟩] := by
    rw [c7, hh]
    simp [hn]
  refine ⟨hcalls, ?_⟩
  intro b
  rw [hcalls]
  unfold released_to_handle
  rw [List.countP_append, List.countP_append, released_in_flush]
  simp [is_release_to_handle]

/-- Witness for C13: close-on-error with handle 1 open, streams created and two frames
queued, the sink not connected. -/
theorem C13_close_cmtspeech_on_error_witness :
    ∃ v, close_cmtspeech_on_error scenario_D_env
        { ready_userdata with
          cmt_connection.streams_created := true
          cmt_connection.dl_frame_queue.cells := [frame 7, frame 8] } = some v ∧
      v.cmt_connection.cmtspeech = none ∧
      v.outq = [CMTSPEECH_MAINLOOP_HANDLER_DELETE_STREAMS] ∧
      v.cmt_connection.dl_frame_queue.cells = [] ∧
      v.calls = [⟨.dl_buffer_release (some 1) (frame 7), false⟩,
        ⟨.dl_buffer_release (some 1) (frame 8), false⟩, ⟨.close (some 1), true⟩] := by
  obtain ⟨v, hv, c1, -, -, -, c6, c7⟩ := C13_close_cmtspeech_on_error scenario_D_env
    { ready_userdata with
      cmt_connection.streams_created := true
      cmt_connection.dl_frame_queue.cells := [frame 7, frame 8] } (by decide)
  exact ⟨v, hv, c1, c6, (c7 rfl).1, ((c7 rfl).2 1 rfl).1⟩

/-- C13, the claim as stated fails in the state with no handle open: close-on-error
empties the queue, but it passes the queued frames to the release call with a null
handle, so no frame has been released back to a protocol handle. -/
theorem C13_no_release_to_handle_without_handle :
    (close_cmtspeech_on_error scenario_D_env closed_with_queued_frames).map
      (fun v => (v.cmt_connection.cmtspeech, v.cmt_connection.dl_frame_queue.cells,
        released_to_handle v.calls (frame 7), released_to_handle v.calls (frame 8),
        v.calls)) =
    some (none, [], 0, 0,
      [⟨.dl_buffer_release none (frame 7), false⟩, ⟨.dl_buffer_release none (frame 8), false⟩,
        ⟨.close none, true⟩]) := by
  decide

/-- C14. Watchdog invariant: from a watchdog state Inactive or Active, a timer-path pass
of `mainloop_cmtspeech` returns with the watchdog state Inactive or Active, and so does
the signal filter for every message, the server-status signal included. The
compare-and-swap at the start of a pass stores CleanupInProgress exactly when the state
was Active, and a pass that starts in Inactive leaves the state Inactive, makes no
library call and posts no request. -/
theorem C14_watchdog_invariant (env : Env) (u : userdata) (msg : dbus_message)
    (hw : u.cmtspeech_cleanup_state = CMTSPEECH_CLEANUP_TIMER_INACTIVE ∨
      u.cmtspeech_cleanup_state = CMTSPEECH_CLEANUP_TIMER_ACTIVE) :
    (timer_path_pass u →
      ∃ w, mainloop_cmtspeech env u = some (0, w) ∧
        (w.cmtspeech_cleanup_state = CMTSPEECH_CLEANUP_TIMER_INACTIVE ∨
          w.cmtspeech_cleanup_state = CMTSPEECH_CLEANUP_TIMER_ACTIVE) ∧
        (u.cmtspeech_cleanup_state = CMTSPEECH_CLEANUP_TIMER_INACTIVE →
          w.cmtspeech_cleanup_state = CMTSPEECH_CLEANUP_TIMER_INACTIVE ∧
          w.calls = u.calls ∧ w.outq = u.outq)) ∧
    ((cmtspeech_dbus_filter env u msg).2.cmtspeech_cleanup_state =
        CMTSPEECH_CLEANUP_TIMER_INACTIVE ∨
      (cmtspeech_dbus_filter env u msg).2.cmtspeech_cleanup_state =
        CMTSPEECH_CLEANUP_TIMER_ACTIVE) ∧
    ((cleanup_state_cmpxchg u CMTSPEECH_CLEANUP_TIMER_ACTIVE
        CMTSPEECH_CLEANUP_IN_PROGRESS).2.cmtspeech_cleanup_state =
          CMTSPEECH_CLEANUP_IN_PROGRESS ↔
      u.cmtspeech_cleanup_state = CMTSPEECH_CLEANUP_TIMER_ACTIVE) := by
  refine ⟨?_, ?_, ?_⟩
  · intro hpass
    refine ⟨_, mainloop_cmtspeech_timer env u hpass, ?_, ?_⟩
    · by_cases hs : u.cmtspeech_server_status = 0
      · rw [if_neg (by simpa using hs)]
        obtain ⟨t1, t2⟩ := mainloop_timer_path_cleanup_state env u
        rcases hw with hi | ha
        · left
          rw [(t1 (by rw [hi]; decide)).1, hi]
        · exact t2 ha
      · rw [if_pos hs]
        obtain ⟨t1, t2⟩ := mainloop_timer_path_cleanup_state env
          { u with cmt_connection.rtpoll :=
              .absolute (env.now + CMTSPEECH_CLEANUP_TIMER_TIMEOUT) }
        rcases hw with hi | ha
        · left
          rw [(t1 (by show u.cmtspeech_cleanup_state ≠ _; rw [hi]; decide)).1]
          exact hi
        · exact t2 ha
    · intro hi
      by_cases hs : u.cmtspeech_server_status = 0
      · rw [if_neg (by simpa using hs)]
        obtain ⟨t1, -⟩ := mainloop_timer_path_cleanup_state env u
        obtain ⟨a, b, c⟩ := t1 (by rw [hi]; decide)
        exact ⟨a.trans hi, b, c⟩
      · rw [if_pos hs]
        obtain ⟨t1, -⟩ := mainloop_timer_path_cleanup_state env
          { u with cmt_connection.rtpoll :=
              .absolute (env.now + CMTSPEECH_CLEANUP_TIMER_TIMEOUT) }
        obtain ⟨a, b, c⟩ := t1 (by show u.cmtspeech_cleanup_state ≠ _; rw [hi]; decide)
        exact ⟨a.trans hi, b, c⟩
  · rcases cmtspeech_dbus_filter_cleanup_state env u msg with h | ⟨-, h⟩ | ⟨-, h⟩
    · rw [h]
      exact hw
    · exact Or.inl h
    · exact Or.inr h
  · rcases hw with hi | ha
    · simp [cleanup_state_cmpxchg, hi]
    · simp [cleanup_state_cmpxchg, ha]

/-- Witness for C14: the idle-timeout pass of Scenario E and a server-status signal,
both from the watchdog state Active. -/
theorem C14_watchdog_invariant_witness :
    (cmtspeech_dbus_filter (timer_env 9 true) (watchdog_armed 5)
        (.CSCALL_STATUS (some (some true)))).2.cmtspeech_cleanup_state =
        CMTSPEECH_CLEANUP_TIMER_INACTIVE ∨
      (cmtspeech_dbus_filter (timer_env 9 true) (watchdog_armed 5)
        (.CSCALL_STATUS (some (some true)))).2.cmtspeech_cleanup_state =
        CMTSPEECH_CLEANUP_TIMER_ACTIVE :=
  (C14_watchdog_invariant (timer_env 9 true) (watchdog_armed 5)
    (.CSCALL_STATUS (some (some true))) (Or.inr rfl)).2.1

/-- C15. Watchdog forced cleanup: a timer-path pass with the watchdog Active, no call in
progress, a handle open and the idle deadline passed returns 0 with the timer disarmed
and the watchdog Inactive. When the handle reports itself active, exactly the
downlink-disconnect and then the uplink-disconnect request are posted and the protocol
error is injected, under the mutex; when it does not, nothing is posted and the only
library call is the is-active query. -/
theorem C15_watchdog_forced_cleanup (env : Env) (u : userdata)
    (hpass : timer_path_pass u)
    (ha : u.cmtspeech_cleanup_state = CMTSPEECH_CLEANUP_TIMER_ACTIVE)
    (hs : u.cmtspeech_server_status = 0)
    (hh : u.cmt_connection.cmtspeech.isSome = true)
    (hd : u.server_inactive_timeout ≤ env.now) :
    ∃ w, mainloop_cmtspeech env u = some (0, w) ∧
      w.outq = u.outq ++
        (if env.is_active then [CMTSPEECH_MAINLOOP_HANDLER_CMT_DL_DISCONNECT,
          CMTSPEECH_MAINLOOP_HANDLER_CMT_UL_DISCONNECT] else []) ∧
      w.calls = u.calls ++ [⟨.is_active u.cmt_connection.cmtspeech, true⟩] ++
        (if env.is_active then [⟨.state_change_error u.cmt_connection.cmtspeech, true⟩]
         else []) ∧
      w.cmt_connection.rtpoll = .disabled ∧
      w.cmtspeech_cleanup_state = CMTSPEECH_CLEANUP_TIMER_INACTIVE := by
  refine ⟨_, mainloop_cmtspeech_timer env u hpass, ?_⟩
  rw [if_neg (by simpa using hs)]
  by_cases h3 : env.is_active = true <;>
    simp [mainloop_timer_path, cleanup_state_cmpxchg, ha, hs, hh, hd, h3, pa_mutex_lock,
      pa_mutex_unlock, record_call, post_mainloop_handler]

/-- Witness for C15: the idle-timeout pass of Scenario E, at time 9 with the deadline 5
and the handle reporting active. -/
theorem C15_watchdog_forced_cleanup_witness :
    ∃ w, mainloop_cmtspeech (timer_env 9 true) (watchdog_armed 5) = some (0, w) ∧
      w.outq = [CMTSPEECH_MAINLOOP_HANDLER_CMT_DL_DISCONNECT,
        CMTSPEECH_MAINLOOP_HANDLER_CMT_UL_DISCONNECT] ∧
      w.calls = [⟨.is_active (some 1), true⟩, ⟨.state_change_error (some 1), true⟩] ∧
      w.cmt_connection.rtpoll = .disabled ∧
      w.cmtspeech_cleanup_state = CMTSPEECH_CLEANUP_TIMER_INACTIVE :=
  C15_watchdog_forced_cleanup (timer_env 9 true) (watchdog_armed 5)
    ⟨_, rfl, by decide⟩ rfl rfl rfl (by decide)

/-- C16, as the code has it: a timer-path pass with the watchdog Active, no call in
progress, a handle open and the idle deadline not yet passed returns 0 with the poll
timer re-armed to fire after the full timeout of five seconds, whatever is left until
the deadline, with the watchdog Active again, no request posted and no library call
made. -/
theorem C16_watchdog_rearm (env : Env) (u : userdata)
    (hpass : timer_path_pass u)
    (ha : u.cmtspeech_cleanup_state = CMTSPEECH_CLEANUP_TIMER_ACTIVE)
    (hs : u.cmtspeech_server_status = 0)
    (hh : u.cmt_connection.cmtspeech.isSome = true)
    (hd : env.now < u.server_inactive_timeout) :
    ∃ w, mainloop_cmtspeech env u = some (0, w) ∧
      w.cmt_connection.rtpoll = .relative 5000000 ∧
      w.cmtspeech_cleanup_state = CMTSPEECH_CLEANUP_TIMER_ACTIVE ∧
      w.outq = u.outq ∧
      w.calls = u.calls := by
  refine ⟨_, mainloop_cmtspeech_timer env u hpass, ?_⟩
  rw [if_neg (by simpa using hs)]
  have hd' : ¬u.server_inactive_timeout ≤ env.now := not_le.mpr hd
  simp [mainloop_timer_path, cleanup_state_cmpxchg, ha, hs, hh, hd', pa_mutex_lock,
    pa_mutex_unlock, CMTSPEECH_CLEANUP_TIMER_TIMEOUT, PA_USEC_PER_SEC]

/-- Witness for C16: a pass at time 1000000 with the deadline at 3000000. -/
theorem C16_watchdog_rearm_witness :
    ∃ w, mainloop_cmtspeech (timer_env 1000000 true) (watchdog_armed 3000000) = some (0, w) ∧
      w.cmt_connection.rtpoll = .relative 5000000 ∧
      w.cmtspeech_cleanup_state = CMTSPEECH_CLEANUP_TIMER_ACTIVE ∧
      w.outq = [] ∧
      w.calls = [] :=
  C16_watchdog_rearm (timer_env 1000000 true) (watchdog_armed 3000000)
    ⟨_, rfl, by decide⟩ rfl rfl rfl (by decide)

/-- C16, the claim as stated fails: at time 1000000 with the deadline at 3000000 the
remaining interval is 2000000 microseconds, and the pass re-arms the timer to fire
after 5000000 microseconds. -/
theorem C16_rearm_is_not_remaining_interval :
    (mainloop_cmtspeech (timer_env 1000000 true) (watchdog_armed 3000000)).map
      (fun r => (r.1, r.2.cmt_connection.rtpoll,
        (watchdog_armed 3000000).server_inactive_timeout - (timer_env 1000000 true).now)) =
    some (0, .relative 5000000, 2000000) := by
  decide

/-- C17, as the code has it: with a handle open and the watchdog Inactive, the signal
filter handles a server-status signal with the value false by telling the library,
setting the idle deadline to the current time plus 5000000 microseconds, moving the
watchdog from Inactive to Active and clearing the server-status flag. -/
theorem C17_server_status_inactive (env : Env) (u : userdata)
    (hh : u.cmt_connection.cmtspeech.isSome = true)
    (hi : u.cmtspeech_cleanup_state = CMTSPEECH_CLEANUP_TIMER_INACTIVE) :
    (cmtspeech_dbus_filter env u (.CSCALL_STATUS (some (some false)))).1 =
      DBUS_HANDLER_RESULT_HANDLED ∧
    (cmtspeech_dbus_filter env u (.CSCALL_STATUS (some (some false)))).2.cmtspeech_cleanup_state
      = CMTSPEECH_CLEANUP_TIMER_ACTIVE ∧
    (cmtspeech_dbus_filter env u (.CSCALL_STATUS (some (some false)))).2.server_inactive_timeout
      = env.now + 5000000 ∧
    (cmtspeech_dbus_filter env u (.CSCALL_STATUS (some (some false)))).2.cmtspeech_server_status
      = 0 ∧
    (cmtspeech_dbus_filter env u (.CSCALL_STATUS (some (some false)))).2.calls =
      u.calls ++ [⟨.state_change_call_status u.cmt_connection.cmtspeech false, true⟩] := by
  simp [cmtspeech_dbus_filter, dbus_server_status, cleanup_state_cmpxchg, pa_mutex_lock,
    pa_mutex_unlock, record_call, hh, hi, CMTSPEECH_CLEANUP_TIMER_TIMEOUT, PA_USEC_PER_SEC]

/-- Witness for C17: the call ends at time 9 on the open connection. -/
theorem C17_server_status_inactive_witness :
    (cmtspeech_dbus_filter (timer_env 9 true) ready_userdata
      (.CSCALL_STATUS (some (some false)))).2.server_inactive_timeout = 9 + 5000000 :=
  (C17_server_status_inactive (timer_env 9 true) ready_userdata rfl rfl).2.2.1

/-- C17, the claim as stated fails when no handle is open: the server-status signal with
the value false is then ignored. The watchdog stays Inactive, the idle deadline stays 0
and the server-status flag stays 1. -/
theorem C17_server_status_ignored_without_handle :
    (cmtspeech_dbus_filter (timer_env 9 true)
        { init_userdata with cmtspeech_server_status := 1 }
        (.CSCALL_STATUS (some (some false)))).map id
      (fun w => (w.cmtspeech_cleanup_state, w.server_inactive_timeout,
        w.cmtspeech_server_status)) =
    (DBUS_HANDLER_RESULT_HANDLED, CMTSPEECH_CLEANUP_TIMER_INACTIVE, 0, 1) := by
  decide

/-- C18. Stop idempotence: from the thread state Quit or Uninitialized, whatever the
event-loop thread stores meanwhile, `cmtspeech_connection_unload` returns with the
thread state Uninitialized, and a second call returns the very same state, so it gives
nothing back; over both calls each resource is given back at most once. -/
theorem C18_unload_idempotent (obs1 obs2 : List cmt_speech_thread_state) (u : userdata)
    (h : u.cmt_connection.thread_state = .CMT_QUIT ∨
      u.cmt_connection.thread_state = .CMT_UNINITIALIZED) :
    ∃ v, cmtspeech_connection_unload obs1 u = some v ∧
      v.cmt_connection.thread_state = .CMT_UNINITIALIZED ∧
      cmtspeech_connection_unload obs2 v = some v ∧
      ∀ r : module_resource, v.freed.count r ≤ u.freed.count r + 1 := by
  rcases h with hq | hu
  · obtain ⟨t1, t2⟩ := unload_teardown_spec u
    refine ⟨unload_teardown u, ?_, t1, ?_, ?_⟩
    · simp [cmtspeech_connection_unload, hq]
    · simp [cmtspeech_connection_unload, t1]
    · intro r
      rw [t2]
      cases r <;> cases u.cmt_connection.cmt_handler <;>
        cases u.cmt_connection.thread_state_change <;> simp [List.count_cons]
  · refine ⟨u, ?_, hu, ?_, ?_⟩
    · simp [cmtspeech_connection_unload, hu]
    · simp [cmtspeech_connection_unload, hu]
    · intro r
      exact Nat.le_succ _

/-- Witness for C18: unload twice after the event-loop thread has reached Quit. -/
theorem C18_unload_idempotent_witness :
    ∃ v, cmtspeech_connection_unload []
        { init_userdata with cmt_connection.thread_state := .CMT_QUIT } = some v ∧
      v.cmt_connection.thread_state = .CMT_UNINITIALIZED ∧
      cmtspeech_connection_unload [] v = some v ∧
      ∀ r : module_resource, v.freed.count r ≤ 0 + 1 :=
  C18_unload_idempotent [] [] { init_userdata with cmt_connection.thread_state := .CMT_QUIT }
    (Or.inl rfl)

/-- C19. The value `mainloop_cmtspeech` returns is 0 or 1, and it is 1 exactly when the
protocol descriptor was readable and check-pending returned a non-negative status; the
function does return whenever the flush assertion of close-on-error holds. So the test
`0 > mainloop_cmtspeech(u)` of `thread_func` is never true: no pass through its loop
leads to the label `fail`. -/
theorem C19_mainloop_never_negative (env : Env) (u : userdata) :
    (∀ r w, mainloop_cmtspeech env u = some (r, w) →
      (r = 0 ∨ r = 1) ∧ ¬r < 0 ∧
      (r = 1 ↔ (∃ pfd, u.cmt_connection.cmt_poll_item = some pfd ∧
        pfd.revents &&& POLLIN ≠ 0) ∧ 0 ≤ env.check_pending_res)) ∧
    ((dl_sink_connected u = true → env.flush_dl_ret = 0) →
      ∃ r w, mainloop_cmtspeech env u = some (r, w)) ∧
    (∀ w, thread_func_pass env u ≠ some (.fail w)) := by
  refine ⟨?_, mainloop_cmtspeech_returns env u, thread_func_pass_never_fails env u⟩
  intro r w h
  have hr := mainloop_cmtspeech_return_value env u r w h
  by_cases hc : (∃ pfd, u.cmt_connection.cmt_poll_item = some pfd ∧
      pfd.revents &&& POLLIN ≠ 0) ∧ 0 ≤ env.check_pending_res
  · rw [if_pos hc] at hr
    subst hr
    exact ⟨Or.inr rfl, by decide, fun _ => hc, fun _ => rfl⟩
  · rw [if_neg hc] at hr
    subst hr
    exact ⟨Or.inl rfl, by decide, fun h1 => absurd h1 (by decide), fun h1 => absurd h1 hc⟩

end Cmtspeech
